import Mathlib

/-!
Shallow embedding of the NSD zone-transfer daemon core (`src/xfrd.c`) used to
check the natural-language specification against the code.

Conventions of the embedding:
* 16-bit and 32-bit machine words are `Nat` values bounded by `2^16` / `2^32`;
  where C truncates or wraps, the embedding takes `% 2^16` / `% 2^32` explicitly.
* `time_t` values are `Int` (the LP64 model: 64-bit signed, never overflowing
  for the values the daemon handles); the C cast `(uint32_t)t` becomes
  `t % 4294967296` (`Int.emod`, non-negative result).
* SOA numeric fields are stored in network byte order exactly as in the C
  struct `xfrd_soa_t`; `ntohl`/`htonl`/`ntohs`/`htons` are modelled as byte
  swaps (little-endian host model); they are involutive bijections, which is
  all the code relies on.
* Side effects (diff-log writes, IPC, sockets, notifications) are recorded as
  an explicit effect list returned next to the updated state.
-/

namespace Xfrd

/-- Byte swap of a 16-bit value (`ntohs`/`htons` on a little-endian host). -/
def byteswap16 (x : Nat) : Nat :=
  (x % 256) * 256 + (x / 256) % 256

/-- Byte swap of a 32-bit value (`ntohl`/`htonl` on a little-endian host). -/
def byteswap32 (x : Nat) : Nat :=
  (x % 256) * 16777216 + ((x / 256) % 256) * 65536 +
    ((x / 65536) % 256) * 256 + (x / 16777216) % 256

def ntohl (x : Nat) : Nat := byteswap32 x
def htonl (x : Nat) : Nat := byteswap32 x
def ntohs (x : Nat) : Nat := byteswap16 x
def htons (x : Nat) : Nat := byteswap16 x

theorem byteswap32_lt (x : Nat) : byteswap32 x < 4294967296 := by
  unfold byteswap32
  have h0 : x % 256 < 256 := Nat.mod_lt _ (by norm_num)
  have h1 : (x / 256) % 256 < 256 := Nat.mod_lt _ (by norm_num)
  have h2 : (x / 65536) % 256 < 256 := Nat.mod_lt _ (by norm_num)
  have h3 : (x / 16777216) % 256 ≤ 255 := Nat.le_of_lt_succ (Nat.mod_lt _ (by norm_num))
  omega

theorem bytes_extract (a b c d : Nat) (ha : a < 256) (hb : b < 256)
    (hc : c < 256) (hd : d < 256) :
    (a * 16777216 + b * 65536 + c * 256 + d) % 256 = d ∧
    (a * 16777216 + b * 65536 + c * 256 + d) / 256 % 256 = c ∧
    (a * 16777216 + b * 65536 + c * 256 + d) / 65536 % 256 = b ∧
    (a * 16777216 + b * 65536 + c * 256 + d) / 16777216 % 256 = a := by
  omega

theorem bytes_decomp (x : Nat) (hx : x < 4294967296) :
    x / 16777216 % 256 * 16777216 + x / 65536 % 256 * 65536 +
      x / 256 % 256 * 256 + x % 256 = x := by
  omega

theorem byteswap32_involutive (x : Nat) (hx : x < 4294967296) :
    byteswap32 (byteswap32 x) = x := by
  obtain ⟨h1, h2, h3, h4⟩ := bytes_extract (x % 256) (x / 256 % 256)
    (x / 65536 % 256) (x / 16777216 % 256)
    (Nat.mod_lt _ (by decide)) (Nat.mod_lt _ (by decide))
    (Nat.mod_lt _ (by decide)) (Nat.mod_lt _ (by decide))
  calc byteswap32 (byteswap32 x)
      = byteswap32 x % 256 * 16777216 + byteswap32 x / 256 % 256 * 65536 +
        byteswap32 x / 65536 % 256 * 256 + byteswap32 x / 16777216 % 256 := rfl
    _ = x / 16777216 % 256 * 16777216 + x / 65536 % 256 * 65536 +
        x / 256 % 256 * 256 + x % 256 := by
          show (x % 256 * 16777216 + x / 256 % 256 * 65536 +
              x / 65536 % 256 * 256 + x / 16777216 % 256) % 256 * 16777216 +
            (x % 256 * 16777216 + x / 256 % 256 * 65536 +
              x / 65536 % 256 * 256 + x / 16777216 % 256) / 256 % 256 * 65536 +
            (x % 256 * 16777216 + x / 256 % 256 * 65536 +
              x / 65536 % 256 * 256 + x / 16777216 % 256) / 65536 % 256 * 256 +
            (x % 256 * 16777216 + x / 256 % 256 * 65536 +
              x / 65536 % 256 * 256 + x / 16777216 % 256) / 16777216 % 256 =
            x / 16777216 % 256 * 16777216 + x / 65536 % 256 * 65536 +
              x / 256 % 256 * 256 + x % 256
          rw [h1, h2, h3, h4]
    _ = x := bytes_decomp x hx

theorem ntohl_htonl (x : Nat) (hx : x < 4294967296) : ntohl (htonl x) = x :=
  byteswap32_involutive x hx

theorem htonl_ntohl (x : Nat) (hx : x < 4294967296) : htonl (ntohl x) = x :=
  byteswap32_involutive x hx

/-- `Modelled from the spec:` `compare_serial` lives in `util.c`, which is not
part of the given sources.  The spec (§4.3) describes it as RFC 1982 serial
arithmetic: the sign of the signed difference modulo 2³², so that
`compare_serial a b > 0` iff `a` is newer than `b`. -/
def compare_serial (a b : Nat) : Int :=
  let d := (a % 4294967296 + 4294967296 - b % 4294967296) % 4294967296
  if d = 0 then 0
  else if d < 2147483648 then 1
  else -1

/-- Zone states, `xfrd_zone_ok`, `xfrd_zone_refreshing`, `xfrd_zone_expired`.
The numeric encoding 0/1/2 (used by the state file) follows the spec (§4.8
`state: <0|1|2>` together with the §3 ordering OK, REFRESHING, EXPIRED); the
C enum itself is declared in `xfrd.h`, which is not under the given sources. -/
inductive ZoneState where
  | ok
  | refreshing
  | expired
deriving DecidableEq, Repr

def ZoneState.encode : ZoneState → Nat
  | .ok => 0
  | .refreshing => 1
  | .expired => 2

def ZoneState.decode : Nat → ZoneState
  | 0 => .ok
  | 1 => .refreshing
  | _ => .expired

/-- One remote primary (`acl_options_t`): the fields `xfrd.c` touches. -/
structure AclOptions where
  ip_address_spec : String
  is_ipv6 : Bool
deriving DecidableEq, Repr

/-- `xfrd_soa_t`: an SOA snapshot.  The numeric fields are stored in network
byte order, exactly as in the C struct; `prim_ns`/`email` are dname pointers
(none = NULL).  Dnames themselves are abstracted as strings (dname parsing
and printing live outside the given sources). -/
structure XfrdSoa where
  typ : Nat
  klass : Nat
  ttl : Nat
  rdata_count : Nat
  prim_ns : Option String
  email : Option String
  serial : Nat
  refresh : Nat
  retry : Nat
  expire : Nat
  minimum : Nat
deriving DecidableEq, Repr

/-- The all-zero snapshot (`memset(&soa, 0, sizeof(soa))`). -/
def XfrdSoa.zero : XfrdSoa :=
  { typ := 0, klass := 0, ttl := 0, rdata_count := 0, prim_ns := none,
    email := none, serial := 0, refresh := 0, retry := 0, expire := 0,
    minimum := 0 }

/-- `xfrd_zone_t`: the per-zone record, restricted to the fields `xfrd.c`
reads or writes.  `master` is the tail of `request_xfr` starting at the
current master (the C code keeps a pointer into that list); `timer_armed`
models `zone_handler.timeout != NULL`; `timeout` is `timeout.tv_sec`
(`tv_nsec` is always 0). -/
structure XfrdZone where
  apex_str : String
  request_xfr : List AclOptions
  master : List AclOptions
  master_num : Nat
  zone_state : ZoneState
  handler_fd : Int
  timer_armed : Bool
  timeout : Int
  soa_nsd : XfrdSoa
  soa_disk : XfrdSoa
  soa_notified : XfrdSoa
  soa_nsd_acquired : Int
  soa_disk_acquired : Int
  soa_notified_acquired : Int
  query_id : Nat
  tcp_conn : Int
  tcp_waiting : Bool
deriving DecidableEq, Repr

/-- Effects of the daemon on the outside world, recorded instead of performed.
`ipcReloadRequest` would be a reload-request byte on the parent IPC channel;
no path of `xfrd.c` emits it (the commit path ends at a
`TODO trigger a reload` comment), the constructor exists so that its absence
is expressible. -/
inductive XfrdEffect where
  | diffWritePacket
  | diffWriteCommit (apex : String) (serial : Nat)
  | tcpObtain
  | udpSendIxfr
  | sendNotify
  | sendExpiryNotification
  | ipcReloadRequest
deriving DecidableEq, Repr

/-- `XFRD_TRANSFER_TIMEOUT` (xfrd.c line 26). -/
def XFRD_TRANSFER_TIMEOUT : Nat := 10

/-- `xfrd_set_timer`: arm the zone timer at absolute time `t`. -/
def xfrd_set_timer (zone : XfrdZone) (t : Int) : XfrdZone :=
  { zone with timer_armed := true, timeout := t }

/-- `xfrd_set_refresh_now`: set state and arm timer at `now`. -/
def xfrd_set_refresh_now (zone : XfrdZone) (zone_state : ZoneState)
    (now : Int) : XfrdZone :=
  { zone with
    zone_state := zone_state
    handler_fd := -1
    timer_armed := true
    timeout := now }

/-- `xfrd_set_timer_retry`: retry scheduling.  `r` models the `random()`
result (a non-negative long). -/
def xfrd_set_timer_retry (now : Int) (r : Nat) (zone : XfrdZone) : XfrdZone :=
  if zone.soa_disk_acquired = 0 then
    xfrd_set_timer zone (now + XFRD_TRANSFER_TIMEOUT + r % XFRD_TRANSFER_TIMEOUT)
  else if zone.zone_state = ZoneState.expired ∨
      now + (ntohl zone.soa_disk.retry : Int) <
        zone.soa_disk_acquired + (ntohl zone.soa_disk.expire : Int) then
    xfrd_set_timer zone (now + (ntohl zone.soa_disk.retry : Int))
  else
    xfrd_set_timer zone (zone.soa_disk_acquired + (ntohl zone.soa_disk.expire : Int))

/-- `RCODE_OK` (NOERROR).  Standard DNS constant (dns.h is outside the given
sources; value fixed by RFC 1035 and the spec §4.7 step 2). -/
def RCODE_OK : Nat := 0

/-- `TYPE_SOA`.  Standard DNS constant (RFC 1035). -/
def TYPE_SOA : Nat := 6

/-- `CLASS_IN`.  Standard DNS constant (RFC 1035). -/
def CLASS_IN : Nat := 1

/-- `Modelled from the spec:` the DNS reply as observed by the validator of
§4.7.  The byte-level accessors (`ID`, `RCODE`, `TC`, `packet_skip_rr`,
`packet_skip_dname`, `buffer_read_u16`, `buffer_read_u32`) live in
`packet.h`/`buffer` code outside the given sources, so a reply is modelled by
the outcomes those accessors produce on it, in the order the validator reads
them: header id, rcode and TC bit; whether all `qdcount` question RRs skip;
`ancount`; whether the first answer's owner dname skips with 10 bytes left
(`ans_head_ok`), the type and class words then read; whether the rdata is
within bounds and the two SOA dnames skip (`ans_rdata_ok`); and the 32-bit
serial then read (host order, as `buffer_read_u32` returns). -/
structure XfrPacket where
  id : Nat
  rcode : Nat
  tc : Bool
  qd_skip_ok : Bool
  ancount : Nat
  ans_head_ok : Bool
  ans_type : Nat
  ans_klass : Nat
  ans_rdata_ok : Bool
  new_serial : Nat
deriving DecidableEq, Repr

/-- The serial dispatch of `xfrd_handle_received_xfr_packet`, from the point
the first answer's serial has been read (line 1484 on): stale drop, lease
refresh on an unchanged serial, mini-notify no-op on `ancount == 1`, TC
promotion to TCP, too-short drop, or the full commit. -/
def xfrd_handle_xfr_serial (now : Int) (zone : XfrdZone)
    (packet : XfrPacket) : XfrdZone × List XfrdEffect :=
  let new_serial := packet.new_serial
  if zone.soa_disk_acquired ≠ 0 ∧
      compare_serial (ntohl zone.soa_disk.serial) new_serial > 0 then
    (zone, [])
  else if zone.soa_disk_acquired ≠ 0 ∧
      ntohl zone.soa_disk.serial = new_serial then
    if zone.soa_notified_acquired = 0 then
      let zone := { zone with soa_disk_acquired := now }
      let zone := if ntohl zone.soa_nsd.serial = new_serial then
          { zone with soa_nsd_acquired := now } else zone
      let zone := { zone with zone_state := ZoneState.ok }
      (xfrd_set_timer zone
        (zone.soa_disk_acquired + (ntohl zone.soa_disk.refresh : Int)), [])
    else (zone, [])
  else if packet.tc then
    if zone.tcp_conn = -1 then (zone, [XfrdEffect.tcpObtain]) else (zone, [])
  else if packet.ancount < 2 then (zone, [])
  else
    let effs := [XfrdEffect.diffWritePacket,
      XfrdEffect.diffWriteCommit zone.apex_str new_serial]
    let zone := { zone with soa_disk_acquired := now }
    let zone := { zone with
      soa_disk := { zone.soa_disk with serial := htonl new_serial } }
    let zone := { zone with zone_state := ZoneState.ok }
    (xfrd_set_timer zone
      (zone.soa_disk_acquired + (ntohl zone.soa_disk.refresh : Int)), effs)

/-- `xfrd_handle_received_xfr_packet`: validate a transfer reply (header id,
rcode, question skip, answer count, first-answer SOA shape), then dispatch
on the serial via `xfrd_handle_xfr_serial`. -/
def xfrd_handle_received_xfr_packet (now : Int) (zone : XfrdZone)
    (packet : XfrPacket) : XfrdZone × List XfrdEffect :=
  if packet.id ≠ zone.query_id then (zone, [])
  else if packet.rcode ≠ RCODE_OK then (zone, [])
  else if ¬ packet.qd_skip_ok then (zone, [])
  else if packet.ancount = 0 then (zone, [])
  else if ¬ packet.ans_head_ok ∨ packet.ans_type ≠ TYPE_SOA ∨
      packet.ans_klass ≠ CLASS_IN then (zone, [])
  else if ¬ packet.ans_rdata_ok then (zone, [])
  else xfrd_handle_xfr_serial now zone packet

/-- Environment of one `xfrd_send_ixfr_request_udp` call: the `random()`
query id, the `socket()` result (`none` = failure) and the `sendto` outcome.
`have_inet6` is the `INET6` build flag. -/
structure UdpEnv where
  qid : Nat
  fd : Option Nat
  send_ok : Bool
  have_inet6 : Bool
deriving Repr

/-- `xfrd_send_ixfr_request_udp`: build the IXFR query and send it over a
fresh UDP socket; returns the fd to read on, or -1.  The query id is stored
into `zone.query_id` before the socket is opened, as in the source. -/
def xfrd_send_ixfr_request_udp (env : UdpEnv) (zone : XfrdZone) :
    Int × XfrdZone × List XfrdEffect :=
  match zone.master with
  | [] => (-1, zone, [])
  | m :: _ =>
    if zone.tcp_conn ≠ -1 then (-1, zone, [])
    else
      let zone := { zone with query_id := env.qid % 65536 }
      if m.is_ipv6 ∧ ¬ env.have_inet6 then (-1, zone, [])
      else
        match env.fd with
        | none => (-1, zone, [])
        | some fd =>
          if env.send_ok then ((fd : Int), zone, [XfrdEffect.udpSendIxfr])
          else (-1, zone, [])

/-- `xfrd_handle_incoming_soa`: fold an SOA reported by the running server
into the zone record. -/
def xfrd_handle_incoming_soa (now : Int) (zone : XfrdZone) (soa : XfrdSoa)
    (acquired : Int) : XfrdZone × List XfrdEffect :=
  if soa.serial = zone.soa_nsd.serial then (zone, [])
  else if soa.serial = zone.soa_disk.serial then
    let zone := { zone with
      soa_nsd := zone.soa_disk
      soa_nsd_acquired := zone.soa_disk_acquired }
    let zone :=
      if (now % 4294967296) - zone.soa_disk_acquired <
          (ntohl zone.soa_disk.refresh : Int) then
        xfrd_set_timer { zone with zone_state := ZoneState.ok }
          (zone.soa_disk_acquired + (ntohl zone.soa_disk.refresh : Int))
      else if (now % 4294967296) - zone.soa_disk_acquired <
          (ntohl zone.soa_disk.expire : Int) then
        xfrd_set_refresh_now zone ZoneState.refreshing now
      else
        xfrd_set_refresh_now zone ZoneState.expired now
    let zone :=
      if zone.soa_notified_acquired ≠ 0 ∧
          compare_serial (ntohl zone.soa_disk.serial)
            (ntohl zone.soa_notified.serial) > 1 then
        { zone with soa_notified_acquired := 0 }
      else zone
    (zone, [XfrdEffect.sendNotify, XfrdEffect.sendExpiryNotification])
  else
    (xfrd_set_refresh_now
      { zone with
        soa_nsd := soa
        soa_disk := soa
        soa_nsd_acquired := acquired
        soa_disk_acquired := acquired
        soa_notified_acquired := 0 } ZoneState.refreshing now, [])

/-- `xfrd_rotate_master`: the master-rotation block of `xfrd_handle_zone`
(advance to the next master; wrap to `request_xfr` after the last). -/
def xfrd_rotate_master (zone : XfrdZone) : XfrdZone :=
  match zone.master with
  | _ :: m2 :: rest =>
    { zone with master := m2 :: rest, master_num := zone.master_num + 1 }
  | _ => { zone with master := zone.request_xfr, master_num := 0 }

/-- Environment of one timeout event: the two potential `random()` draws of
the two `xfrd_set_timer_retry` calls and the UDP-send environment. -/
structure ZoneTimeoutEnv where
  r1 : Nat
  r2 : Nat
  udp : UdpEnv
deriving Repr

/-- `xfrd_handle_zone`, NETIO_EVENT_TIMEOUT branch with `tcp_conn = -1`
(the TCP branches at the top of the C function delegate to the TCP engine
and are modelled with the pool below): close the probe socket, schedule a
retry, rotate the master, and start an AXFR (via TCP) or a UDP IXFR probe.
The expiry check `soa_disk_acquired + ntohl(expire) > (uint32_t)now` is
kept exactly as written in the source. -/
def xfrd_handle_zone_timeout (now : Int) (env : ZoneTimeoutEnv)
    (zone : XfrdZone) : XfrdZone × List XfrdEffect :=
  let zone := { zone with handler_fd := -1 }
  let zone := xfrd_set_timer_retry now env.r1 zone
  if zone.tcp_waiting then (zone, [])
  else
    let zone := xfrd_rotate_master zone
    if zone.soa_disk_acquired = 0 then (zone, [XfrdEffect.tcpObtain])
    else
      let sent := xfrd_send_ixfr_request_udp env.udp zone
      let zone := { sent.2.1 with handler_fd := sent.1 }
      if zone.soa_disk_acquired + (ntohl zone.soa_disk.expire : Int) >
          now % 4294967296 then
        let zone := { zone with zone_state := ZoneState.expired }
        (xfrd_set_timer_retry now env.r2 zone,
          sent.2.2 ++ [XfrdEffect.sendExpiryNotification])
      else (zone, sent.2.2)

/-- `XFRD_MAX_TCP`.  The macro lives in `xfrd.h`, outside the given sources;
the spec (§3, §4.5) fixes the pool capacity at `MAX_TCP` = 8.  It is an
`int` in the C comparisons, hence `Int` here. -/
def XFRD_MAX_TCP : Int := 8

/-- Zones are identified by an abstract id in the pool model. -/
abbrev ZoneId := Nat

/-- The pool-relevant part of a zone record: `tcp_conn` (slot index or -1)
and `tcp_waiting`.  The FIFO links (`tcp_waiting_next`) are represented by
the queue list in `XfrdPool`. -/
structure PoolZone where
  tcp_conn : Int
  tcp_waiting : Bool
deriving DecidableEq, Repr

/-- The TCP pool of `xfrd_state_t`: `tcp_count`, the per-slot `fd != -1`
flags of `tcp_state[]`, and the wait FIFO
(`tcp_waiting_first` … `tcp_waiting_last`). -/
structure XfrdPool where
  tcp_count : Int
  slot_fd : List Bool
  waiting_q : List ZoneId
  zones : ZoneId → PoolZone

/-- The release prologue: clear the zone's connection and waiting flag and
close the slot's fd (`xfrd_tcp_release` lines 1396-1404). -/
def poolClearZone (pool : XfrdPool) (z : ZoneId) : XfrdPool :=
  { pool with
    zones := Function.update pool.zones z ⟨-1, false⟩
    slot_fd := pool.slot_fd.set (pool.zones z).tcp_conn.toNat false }

/-- Hand the freed slot `conn` to the popped FIFO head `z2`; `opened` is the
outcome of `xfrd_tcp_open` for `z2` (on success the slot fd is set). -/
def poolHandOff (pool : XfrdPool) (z2 : ZoneId) (rest : List ZoneId)
    (conn : Int) (opened : Bool) : XfrdPool :=
  let p : XfrdPool := { pool with
    waiting_q := rest
    zones := Function.update pool.zones z2 ⟨conn, false⟩ }
  if opened then { p with slot_fd := p.slot_fd.set conn.toNat true } else p

/-- `xfrd_tcp_release`: free the zone's slot; if the pool is full and a zone
waits, hand the slot to the FIFO head (a failing `xfrd_tcp_open` there calls
release again on the popped zone, which pops the next waiter); otherwise
decrement `tcp_count`.  `ok` is the `xfrd_tcp_open` oracle. -/
def xfrd_tcp_release (ok : ZoneId → Bool) (pool : XfrdPool) (z : ZoneId) :
    XfrdPool :=
  match hq : pool.waiting_q with
  | [] => { poolClearZone pool z with tcp_count := pool.tcp_count - 1 }
  | z2 :: rest =>
    if pool.tcp_count = XFRD_MAX_TCP then
      if ok z2 then
        poolHandOff (poolClearZone pool z) z2 rest ((pool.zones z).tcp_conn) true
      else
        xfrd_tcp_release ok
          (poolHandOff (poolClearZone pool z) z2 rest
            ((pool.zones z).tcp_conn) false) z2
    else { poolClearZone pool z with tcp_count := pool.tcp_count - 1 }
termination_by pool.waiting_q.length
decreasing_by
  simp only [poolHandOff, poolClearZone, hq]
  simp

/-- `xfrd_tcp_obtain`: if a slot is free, take it (increment `tcp_count`,
assign the first slot with `fd < 0`); a failing `xfrd_tcp_open` releases it
again.  Otherwise append the zone to the FIFO tail with `waiting` set.  The
source asserts `tcp_conn == -1 && !tcp_waiting` on entry. -/
def xfrd_tcp_obtain (ok : ZoneId → Bool) (pool : XfrdPool) (z : ZoneId) :
    XfrdPool :=
  if pool.tcp_count < XFRD_MAX_TCP then
    let pool : XfrdPool := { pool with tcp_count := pool.tcp_count + 1 }
    match pool.slot_fd.findIdx? (fun b => !b) with
    | some i =>
      let pool : XfrdPool :=
        { pool with zones := Function.update pool.zones z ⟨(i : Int), false⟩ }
      if ok z then { pool with slot_fd := pool.slot_fd.set i true }
      else xfrd_tcp_release ok pool z
    | none => pool
  else
    { pool with
      waiting_q := pool.waiting_q ++ [z]
      zones := Function.update pool.zones z ⟨-1, true⟩ }

/-- One pool operation, with its `xfrd_tcp_open` oracle. -/
inductive PoolOp where
  | obtain (z : ZoneId) (ok : ZoneId → Bool)
  | release (z : ZoneId) (ok : ZoneId → Bool)

def poolStep (pool : XfrdPool) : PoolOp → XfrdPool
  | PoolOp.obtain z ok => xfrd_tcp_obtain ok pool z
  | PoolOp.release z ok => xfrd_tcp_release ok pool z

def poolRun (pool : XfrdPool) (ops : List PoolOp) : XfrdPool :=
  ops.foldl poolStep pool

/-- The pool as `xfrd_init` leaves it: no connection in use, all slot fds -1,
empty FIFO, every zone idle. -/
def initPool : XfrdPool :=
  { tcp_count := 0
    slot_fd := List.replicate 8 false
    waiting_q := []
    zones := fun _ => ⟨-1, false⟩ }

/-! ## State file codec (`xfrd_read_state` / `xfrd_write_state`)

The file is modelled as a list of lines, each line a list of tokens; a token
is a word or a decimal integer.  `fprintf`-rendering of an `int` and
`atoi`/`atol`-parsing are inverse on this representation, which is exactly
how the C pair behaves (decimal rendering of an `int` is re-parsed to the
same `int`); conversion of wider values through `int` (`%d` of a `uint32_t`
or of a `time_t`) is the explicit two's-complement wrap `toInt32`. -/

inductive Tok where
  | w (s : String)
  | num (n : Int)
deriving DecidableEq, Repr

/-- A token starting a `#` comment (`buf[0] == '#'` in `xfrd_read_token`). -/
def tokIsComment : Tok → Bool
  | Tok.w s =>
    match s.data with
    | c :: _ => c = '#'
    | [] => false
  | Tok.num _ => false

/-- `atoi`/`atol` of a token: a decimal token parses to its value; a word
token (never numeric in the files the writer emits) parses to 0. -/
def tokAtoi : Tok → Int
  | Tok.num n => n
  | Tok.w _ => 0

/-- Two's-complement wrap to `int` (`(int)v` / printing a wider value
through `%d`). -/
def toInt32 (v : Int) : Int :=
  (v + 2147483648) % 4294967296 - 2147483648

/-- `xfrd_read_token`: next whitespace-separated word; a word starting with
`#` discards the rest of its line. -/
def xfrd_read_token : List (List Tok) → Option (Tok × List (List Tok))
  | [] => none
  | [] :: rest => xfrd_read_token rest
  | (t :: ts) :: rest =>
    if tokIsComment t then xfrd_read_token rest
    else some (t, ts :: rest)

/-- `xfrd_read_check_str`: read a token and compare it to `str`. -/
def xfrd_read_check_str (s : String) (f : List (List Tok)) :
    Option (List (List Tok)) :=
  match xfrd_read_token f with
  | some (Tok.w t, f) => if t = s then some f else none
  | some (Tok.num _, _) => none
  | none => none

/-- `xfrd_read_i16`: `atoi` into a `uint16_t`. -/
def xfrd_read_i16 (f : List (List Tok)) : Option (Nat × List (List Tok)) :=
  match xfrd_read_token f with
  | none => none
  | some (t, f) => some (((tokAtoi t) % 65536).toNat, f)

/-- `xfrd_read_i32`: `atoi` into a `uint32_t`. -/
def xfrd_read_i32 (f : List (List Tok)) : Option (Nat × List (List Tok)) :=
  match xfrd_read_token f with
  | none => none
  | some (t, f) => some (((tokAtoi t) % 4294967296).toNat, f)

/-- `xfrd_read_time_t`: `atol` into a `time_t`. -/
def xfrd_read_time_t (f : List (List Tok)) : Option (Int × List (List Tok)) :=
  match xfrd_read_token f with
  | none => none
  | some (t, f) => some (tokAtoi t, f)

/-- `Modelled from the spec:` `dname_parse` (dname.c is outside the given
sources).  Dnames are abstracted as their textual form; parsing fails only
on the empty text.  Note `"."` (the root, which the writer emits for a NULL
dname) parses to a non-NULL dname. -/
def dname_parse_tok : Tok → Option String
  | Tok.w s => if s = "" then none else some s
  | Tok.num n => some (toString n)

/-- `Modelled from the spec:` `dname_to_string` of a possibly NULL dname as
the writer uses it (`.` for NULL). -/
def dname_out : Option String → String
  | none => "."
  | some s => s

/-- `xfrd_read_state_soa`: the acquired stamp, and unless it is zero the
eleven SOA fields (numerics re-encoded to network order as read). -/
def xfrd_read_state_soa (idA idS : String) (f0 : List (List Tok)) :
    Option (XfrdSoa × Int × List (List Tok)) :=
  match xfrd_read_check_str idA f0 with
  | none => none
  | some f =>
  match xfrd_read_time_t f with
  | none => none
  | some (t, f) =>
  if t = 0 then some (XfrdSoa.zero, t, f)
  else
  match xfrd_read_check_str idS f with
  | none => none
  | some f =>
  match xfrd_read_i16 f with
  | none => none
  | some (ty, f) =>
  match xfrd_read_i16 f with
  | none => none
  | some (kl, f) =>
  match xfrd_read_i32 f with
  | none => none
  | some (tt, f) =>
  match xfrd_read_i16 f with
  | none => none
  | some (rc, f) =>
  match xfrd_read_token f with
  | none => none
  | some (ptok, f) =>
  match dname_parse_tok ptok with
  | none => none
  | some pn =>
  match xfrd_read_token f with
  | none => none
  | some (etok, f) =>
  match dname_parse_tok etok with
  | none => none
  | some em =>
  match xfrd_read_i32 f with
  | none => none
  | some (se, f) =>
  match xfrd_read_i32 f with
  | none => none
  | some (re, f) =>
  match xfrd_read_i32 f with
  | none => none
  | some (rt, f) =>
  match xfrd_read_i32 f with
  | none => none
  | some (ex, f) =>
  match xfrd_read_i32 f with
  | none => none
  | some (mi, f) =>
  some ({ typ := htons ty, klass := htons kl, ttl := htonl tt,
          rdata_count := htons rc, prim_ns := some pn, email := some em,
          serial := htonl se, refresh := htonl re, retry := htonl rt,
          expire := htonl ex, minimum := htonl mi }, t, f)

/-- One parsed zone block of the state file. -/
structure ZoneBlock where
  name : String
  state : Nat
  masnum : Nat
  timeoutv : Nat
  nsd : XfrdSoa
  nsdAcq : Int
  disk : XfrdSoa
  diskAcq : Int
  ntf : XfrdSoa
  ntfAcq : Int
deriving DecidableEq, Repr

/-- The parsing part of one iteration of the `xfrd_read_state` zone loop
(including the `state > 2` corruption check). -/
def xfrd_read_zone_block (f0 : List (List Tok)) :
    Option (ZoneBlock × List (List Tok)) :=
  match xfrd_read_check_str "zone:" f0 with
  | none => none
  | some f =>
  match xfrd_read_check_str "name:" f with
  | none => none
  | some f =>
  match xfrd_read_token f with
  | none => none
  | some (ptok, f) =>
  match dname_parse_tok ptok with
  | none => none
  | some name =>
  match xfrd_read_check_str "state:" f with
  | none => none
  | some f =>
  match xfrd_read_i32 f with
  | none => none
  | some (state, f) =>
  if state > 2 then none
  else
  match xfrd_read_check_str "master:" f with
  | none => none
  | some f =>
  match xfrd_read_i32 f with
  | none => none
  | some (masnum, f) =>
  match xfrd_read_check_str "next_timeout:" f with
  | none => none
  | some f =>
  match xfrd_read_i32 f with
  | none => none
  | some (timeoutv, f) =>
  match xfrd_read_state_soa "soa_nsd_acquired:" "soa_nsd:" f with
  | none => none
  | some (nsd, nsdAcq, f) =>
  match xfrd_read_state_soa "soa_disk_acquired:" "soa_disk:" f with
  | none => none
  | some (disk, diskAcq, f) =>
  match xfrd_read_state_soa "soa_notify_acquired:" "soa_notify:" f with
  | none => none
  | some (ntf, ntfAcq, f) =>
  some ({ name := name, state := state, masnum := masnum,
          timeoutv := timeoutv, nsd := nsd, nsdAcq := nsdAcq,
          disk := disk, diskAcq := diskAcq, ntf := ntf,
          ntfAcq := ntfAcq }, f)

/-- The per-zone effect of one iteration of the `xfrd_read_state` loop on a
configured zone found in the registry: the future-time skip, the field
assignments, the master walk with fallback, the refresh/expiry re-arming,
and the incoming-SOA handling of the zone's previous in-memory SOA. -/
def xfrd_read_zone_apply (now : Int) (b : ZoneBlock) (z : XfrdZone) :
    XfrdZone :=
  if b.nsdAcq > now + 15 ∨ b.diskAcq > now + 15 ∨ b.ntfAcq > now + 15 then z
  else
    let z1 := { z with
      zone_state := ZoneState.decode b.state
      master_num := b.masnum
      timeout := (b.timeoutv : Int) }
    let z2 := { z1 with
      master := if b.masnum ≥ z1.request_xfr.length then z1.request_xfr
        else z1.request_xfr.drop b.masnum }
    let z3 :=
      if b.timeoutv = 0 ∨
          (b.timeoutv : Int) - b.diskAcq > (ntohl b.disk.refresh : Int) ∨
          b.ntfAcq ≠ 0 then
        xfrd_set_refresh_now z2 ZoneState.refreshing now
      else z2
    let z4 :=
      if b.diskAcq ≠ 0 ∧
          (now % 4294967296) - b.diskAcq > (ntohl b.disk.expire : Int) then
        xfrd_set_refresh_now z3 ZoneState.expired now
      else z3
    let inc_soa := z4.soa_nsd
    let inc_acq := z4.soa_nsd_acquired
    let z5 := { z4 with
      soa_nsd := b.nsd
      soa_disk := b.disk
      soa_notified := b.ntf
      soa_nsd_acquired := b.nsdAcq
      soa_disk_acquired := b.diskAcq
      soa_notified_acquired := b.ntfAcq }
    if inc_acq ≠ 0 then (xfrd_handle_incoming_soa now z5 inc_soa inc_acq).1
    else z5

/-- The zone loop of `xfrd_read_state`: parse `n` blocks, apply each to the
zone of the registry carrying its name (unknown names are skipped), abort on
the first corrupt block keeping the zones read so far. -/
def xfrd_read_zones (now : Int) : Nat → List XfrdZone → List (List Tok) →
    List XfrdZone
  | 0, reg, _ => reg
  | n + 1, reg, f =>
    match xfrd_read_zone_block f with
    | none => reg
    | some (b, f) =>
      xfrd_read_zones now n
        (reg.map fun z => if z.apex_str = b.name then
          xfrd_read_zone_apply now b z else z) f

/-- `Modelled from the spec:` `XFRD_FILE_MAGIC` is defined in `xfrd.h`,
outside the given sources; the spec (§4.8) only requires a leading and
trailing magic string shared by reader and writer. -/
def XFRD_FILE_MAGIC : String := "NSDXFRD1"

/-- `xfrd_read_state`: header checks (magic, filetime not in the future,
zone count), then the zone loop.  The trailing magic check in the source
can only log corruption; it does not change the registry, so the registry
result is the loop's result. -/
def xfrd_read_state (now : Int) (reg : List XfrdZone)
    (f : List (List Tok)) : List XfrdZone :=
  match xfrd_read_check_str XFRD_FILE_MAGIC f with
  | none => reg
  | some f =>
  match xfrd_read_check_str "filetime:" f with
  | none => reg
  | some f =>
  match xfrd_read_i32 f with
  | none => reg
  | some (ft, f) =>
  if (ft : Int) > now + 15 then reg
  else
  match xfrd_read_check_str "numzones:" f with
  | none => reg
  | some f =>
  match xfrd_read_i32 f with
  | none => reg
  | some (n, f) => xfrd_read_zones now n reg f

/-- `neato_timeout` at line granularity: the words it appends to the current
comment line, closing the line exactly when the printed duration is 0
(`if(secs <= 0)` on a `uint32_t` prints `0s` and a newline).  The duration
words themselves are comment text the reader never inspects and are
abbreviated to one word. -/
def neatoFold (init : List Tok) (items : List (String × Nat)) :
    List (List Tok) :=
  let r := items.foldl
    (fun (acc : List (List Tok) × List Tok) it =>
      let cur := acc.2 ++ [Tok.w it.1, Tok.w "="]
      if it.2 = 0 then (acc.1 ++ [cur ++ [Tok.w "0s"]], ([] : List Tok))
      else (acc.1, cur ++ [Tok.w "d"]))
    (([] : List (List Tok)), init)
  r.1 ++ [r.2]

/-- `xfrd_write_state_soa`: the acquired line (with its `# was … ago`
comment, which spills `ago` onto a fresh line when the age prints as 0),
and unless the stamp is 0 the SOA data line and the
`# refresh/retry/expire/minimum` comment lines. -/
def xfrd_write_state_soa_lines (now : Int) (id : String) (soa : XfrdSoa)
    (soatime : Int) : List (List Tok) :=
  if soatime = 0 then [[Tok.w (id ++ "_acquired:"), Tok.num (toInt32 soatime)]]
  else
    (if ((now - soatime) % 4294967296 : Int) = 0 then
      [[Tok.w (id ++ "_acquired:"), Tok.num (toInt32 soatime),
        Tok.w "#", Tok.w "was", Tok.w "0s"], [Tok.w "ago"]]
    else
      [[Tok.w (id ++ "_acquired:"), Tok.num (toInt32 soatime),
        Tok.w "#", Tok.w "was", Tok.w "d", Tok.w "ago"]])
    ++ [[Tok.w (id ++ ":"), Tok.num (toInt32 (ntohs soa.typ)),
         Tok.num (toInt32 (ntohs soa.klass)), Tok.num (toInt32 (ntohl soa.ttl)),
         Tok.num (toInt32 (ntohs soa.rdata_count)),
         Tok.w (dname_out soa.prim_ns), Tok.w (dname_out soa.email),
         Tok.num (toInt32 (ntohl soa.serial)),
         Tok.num (toInt32 (ntohl soa.refresh)),
         Tok.num (toInt32 (ntohl soa.retry)),
         Tok.num (toInt32 (ntohl soa.expire)),
         Tok.num (toInt32 (ntohl soa.minimum))]]
    ++ neatoFold [Tok.w "#"]
      [("refresh", ntohl soa.refresh), ("retry", ntohl soa.retry),
       ("expire", ntohl soa.expire), ("minimum", ntohl soa.minimum)]

/-- One zone block as `xfrd_write_state` prints it. -/
def xfrd_write_zone_lines (now : Int) (z : XfrdZone) : List (List Tok) :=
  [[Tok.w "zone:", Tok.w "name:", Tok.w z.apex_str],
   [Tok.w "state:", Tok.num (toInt32 z.zone_state.encode), Tok.w "#", Tok.w "st"],
   [Tok.w "master:", Tok.num (toInt32 z.master_num)]]
  ++ (if z.timer_armed then
      (if ((z.timeout - now) % 4294967296 : Int) = 0 then
        [[Tok.w "next_timeout:", Tok.num (toInt32 z.timeout),
          Tok.w "#", Tok.w "=", Tok.w "0s"], []]
      else
        [[Tok.w "next_timeout:", Tok.num (toInt32 z.timeout),
          Tok.w "#", Tok.w "=", Tok.w "d"]])
    else [[Tok.w "next_timeout:", Tok.num 0]])
  ++ xfrd_write_state_soa_lines now "soa_nsd" z.soa_nsd z.soa_nsd_acquired
  ++ xfrd_write_state_soa_lines now "soa_disk" z.soa_disk z.soa_disk_acquired
  ++ xfrd_write_state_soa_lines now "soa_notify" z.soa_notified
      z.soa_notified_acquired
  ++ [[]]

/-- `xfrd_write_state`: magic, filetime (with the `ctime` comment, whose own
newline leaves an empty line), zone count, the zone blocks in registry
order, trailing magic. -/
def xfrd_write_state (now : Int) (reg : List XfrdZone) : List (List Tok) :=
  [[Tok.w XFRD_FILE_MAGIC],
   [Tok.w "filetime:", Tok.num (toInt32 now), Tok.w "#", Tok.w "ctime"],
   [],
   [Tok.w "numzones:", Tok.num (reg.length : Int)],
   []]
  ++ (reg.map (xfrd_write_zone_lines now)).flatten
  ++ [[Tok.w XFRD_FILE_MAGIC]]

/-- The zone record `xfrd_init_zones` builds for a configured secondary zone
whose database copy is empty (no SOA on disk), as on a restart before
`xfrd_read_state` runs. -/
def freshZone (now : Int) (z : XfrdZone) : XfrdZone :=
  { apex_str := z.apex_str
    request_xfr := z.request_xfr
    master := z.request_xfr
    master_num := 0
    zone_state := ZoneState.refreshing
    handler_fd := -1
    timer_armed := true
    timeout := now
    soa_nsd := XfrdSoa.zero
    soa_disk := XfrdSoa.zero
    soa_notified := XfrdSoa.zero
    soa_nsd_acquired := 0
    soa_disk_acquired := 0
    soa_notified_acquired := 0
    query_id := 0
    tcp_conn := -1
    tcp_waiting := false }

/-! ## Sample data for witnesses and counterexamples -/

def sampleAcl : AclOptions := { ip_address_spec := "10.0.0.1", is_ipv6 := false }

def sampleSoa : XfrdSoa :=
  { typ := htons 6, klass := htons 1, ttl := htonl 3600, rdata_count := htons 7,
    prim_ns := some "ns.example.com.", email := some "root.example.com.",
    serial := htonl 100, refresh := htonl 60, retry := htonl 30,
    expire := htonl 300, minimum := htonl 5 }

/-- A zone that acquired `sampleSoa` at time 1000 and is refreshing. -/
def sampleZone : XfrdZone :=
  { apex_str := "example.com", request_xfr := [sampleAcl],
    master := [sampleAcl], master_num := 0,
    zone_state := ZoneState.refreshing, handler_fd := -1,
    timer_armed := true, timeout := 1060, soa_nsd := sampleSoa,
    soa_disk := sampleSoa, soa_notified := XfrdSoa.zero,
    soa_nsd_acquired := 1000, soa_disk_acquired := 1000,
    soa_notified_acquired := 0, query_id := 7, tcp_conn := -1,
    tcp_waiting := false }

/-- A zone that has never acquired any SOA. -/
def sampleZone0 : XfrdZone :=
  { sampleZone with
    soa_nsd := XfrdSoa.zero
    soa_disk := XfrdSoa.zero
    soa_nsd_acquired := 0
    soa_disk_acquired := 0 }

def sampleEnv : ZoneTimeoutEnv :=
  { r1 := 3, r2 := 4,
    udp := { qid := 99, fd := some 5, send_ok := true, have_inet6 := true } }

/-- A validating reply committing serial 105 with 8 answer records. -/
def samplePktCommit : XfrPacket :=
  { id := 7, rcode := 0, tc := false, qd_skip_ok := true, ancount := 8,
    ans_head_ok := true, ans_type := 6, ans_klass := 1, ans_rdata_ok := true,
    new_serial := 105 }

/-! ## Theorems -/

theorem compare_serial_self (a : Nat) : compare_serial a a = 0 := by
  unfold compare_serial
  simp

/-- C1: the claim reads: with `soa_disk_acquired != 0`, a timer poll at
`now` with `now - soa_disk_acquired > expire` sets the zone EXPIRED, and a
zone still inside its expire window is not moved to EXPIRED.  The source has
the comparison inverted (`acquired + expire > now`, line 369, under the
comment `zone expired`): at `now = 2000` with `acquired = 1000` and
`expire = 300` (long past expiry) the zone stays REFRESHING, while at
`now = 1100` (inside the window) it is marked EXPIRED. -/
theorem c1_expiry_check_inverted :
    (xfrd_handle_zone_timeout 2000 sampleEnv sampleZone).1.zone_state =
      ZoneState.refreshing ∧
    (2000 : Int) - sampleZone.soa_disk_acquired >
      (ntohl sampleZone.soa_disk.expire : Int) ∧
    (xfrd_handle_zone_timeout 2000 sampleEnv sampleZone).2 =
      [XfrdEffect.udpSendIxfr] ∧
    (xfrd_handle_zone_timeout 1100 sampleEnv sampleZone).1.zone_state =
      ZoneState.expired ∧
    (xfrd_handle_zone_timeout 1100 sampleEnv sampleZone).2 =
      [XfrdEffect.udpSendIxfr, XfrdEffect.sendExpiryNotification] ∧
    (1100 : Int) - sampleZone.soa_disk_acquired ≤
      (ntohl sampleZone.soa_disk.expire : Int) := by
  refine ⟨by decide, by decide, by decide, by decide, by decide, by decide⟩

/-- C3: after the commit of a full transfer the claim requires a
reload-request byte on the parent IPC channel.  The source's commit path
(lines 1525-1547) writes the diff packet and commit records and returns at
the comment `TODO trigger a reload`: the effect trace of a committing reply
holds exactly the two diff-log writes and no IPC reload request. -/
theorem c3_no_reload_after_commit :
    (xfrd_handle_received_xfr_packet 1200 sampleZone samplePktCommit).2 =
      [XfrdEffect.diffWritePacket,
       XfrdEffect.diffWriteCommit "example.com" 105] ∧
    XfrdEffect.ipcReloadRequest ∉
      (xfrd_handle_received_xfr_packet 1200 sampleZone samplePktCommit).2 := by
  refine ⟨by decide, by decide⟩

/-- C4: `xfrd_set_timer_retry` arms the timer at `now + 10 + random(0,10)`
when `soa_disk_acquired == 0`; otherwise at `now + retry` when the state is
EXPIRED or `now + retry < acquired + expire`, and at exactly
`acquired + expire` otherwise; nothing but the timer changes. -/
theorem c4_retry_timer (now : Int) (r : Nat) (zone : XfrdZone) :
    (xfrd_set_timer_retry now r zone).timer_armed = true ∧
    { xfrd_set_timer_retry now r zone with
      timer_armed := zone.timer_armed
      timeout := zone.timeout } = zone ∧
    (zone.soa_disk_acquired = 0 →
      ∃ j : Nat, j < 10 ∧ (xfrd_set_timer_retry now r zone).timeout =
        now + 10 + (j : Int)) ∧
    (zone.soa_disk_acquired ≠ 0 →
      ((zone.zone_state = ZoneState.expired ∨
        now + (ntohl zone.soa_disk.retry : Int) <
          zone.soa_disk_acquired + (ntohl zone.soa_disk.expire : Int)) →
        (xfrd_set_timer_retry now r zone).timeout =
          now + (ntohl zone.soa_disk.retry : Int)) ∧
      (¬ (zone.zone_state = ZoneState.expired ∨
        now + (ntohl zone.soa_disk.retry : Int) <
          zone.soa_disk_acquired + (ntohl zone.soa_disk.expire : Int)) →
        (xfrd_set_timer_retry now r zone).timeout =
          zone.soa_disk_acquired + (ntohl zone.soa_disk.expire : Int))) := by
  refine ⟨?_, ?_, ?_, ?_⟩
  · unfold xfrd_set_timer_retry xfrd_set_timer
    split
    · rfl
    · split <;> rfl
  · unfold xfrd_set_timer_retry xfrd_set_timer
    split
    · rfl
    · split <;> rfl
  · intro h
    refine ⟨r % 10, (by omega : r % 10 < 10), ?_⟩
    unfold xfrd_set_timer_retry xfrd_set_timer XFRD_TRANSFER_TIMEOUT
    rw [if_pos h]
    push_cast
    ring
  · intro h
    constructor
    · intro hc
      unfold xfrd_set_timer_retry xfrd_set_timer
      rw [if_neg h, if_pos hc]
    · intro hc
      unfold xfrd_set_timer_retry xfrd_set_timer
      rw [if_neg h, if_neg hc]

theorem c4_retry_timer_witness :
    (xfrd_set_timer_retry 50 13 sampleZone0).timer_armed = true ∧
    (∃ j : Nat, j < 10 ∧ (xfrd_set_timer_retry 50 13 sampleZone0).timeout =
      50 + 10 + (j : Int)) ∧
    (xfrd_set_timer_retry 1100 13 sampleZone).timeout =
      1100 + (ntohl sampleZone.soa_disk.retry : Int) := by
  refine ⟨(c4_retry_timer 50 13 sampleZone0).1,
    (c4_retry_timer 50 13 sampleZone0).2.2.1 (by decide),
    ((c4_retry_timer 1100 13 sampleZone).2.2.2 (by decide)).1
      (Or.inr (by decide))⟩

/-- C9: `xfrd_handle_incoming_soa` on an SOA whose serial equals
`soa_nsd.serial` returns immediately, leaving every field of the zone
unchanged and performing no effect. -/
theorem c9_incoming_equal_serial_frame (now : Int) (zone : XfrdZone)
    (soa : XfrdSoa) (acquired : Int)
    (h : soa.serial = zone.soa_nsd.serial) :
    xfrd_handle_incoming_soa now zone soa acquired = (zone, []) := by
  unfold xfrd_handle_incoming_soa
  rw [if_pos h]

theorem c9_incoming_equal_serial_frame_witness :
    xfrd_handle_incoming_soa 1200 sampleZone sampleSoa 1100 =
      (sampleZone, []) :=
  c9_incoming_equal_serial_frame 1200 sampleZone sampleSoa 1100 rfl

/-- C10: with a TCP connection engaged (`tcp_conn != -1`),
`xfrd_send_ixfr_request_udp` returns -1 before building the query: no
datagram is sent and the zone (in particular `query_id`) is unchanged. -/
theorem c10_no_udp_while_tcp (env : UdpEnv) (zone : XfrdZone)
    (h : zone.tcp_conn ≠ -1) :
    xfrd_send_ixfr_request_udp env zone = (-1, zone, []) := by
  unfold xfrd_send_ixfr_request_udp
  cases zone.master with
  | nil => rfl
  | cons m rest => simp [h]

theorem c10_no_udp_while_tcp_witness :
    xfrd_send_ixfr_request_udp sampleEnv.udp
      { sampleZone with tcp_conn := 3 } =
      (-1, { sampleZone with tcp_conn := 3 }, []) :=
  c10_no_udp_while_tcp sampleEnv.udp { sampleZone with tcp_conn := 3 }
    (by decide)

/-- A validating reply advertising the still-current serial 100. -/
def samplePktSame : XfrPacket := { samplePktCommit with ancount := 1, new_serial := 100 }

/-- A validating reply advertising the stale serial 99. -/
def samplePktOld : XfrPacket := { samplePktCommit with new_serial := 99 }

/-- After a fully validating header and first answer, the handler is the
serial dispatch. -/
theorem xfrd_handler_validated (now : Int) (zone : XfrdZone)
    (packet : XfrPacket)
    (hid : packet.id = zone.query_id) (hrc : packet.rcode = RCODE_OK)
    (hqd : packet.qd_skip_ok = true) (han : packet.ancount ≠ 0)
    (hhd : packet.ans_head_ok = true) (hty : packet.ans_type = TYPE_SOA)
    (hkl : packet.ans_klass = CLASS_IN) (hrd : packet.ans_rdata_ok = true) :
    xfrd_handle_received_xfr_packet now zone packet =
      xfrd_handle_xfr_serial now zone packet := by
  unfold xfrd_handle_received_xfr_packet
  simp [hid, hrc, hqd, han, hhd, hty, hkl, hrd]

/-- C6: a validated reply whose first-answer serial is older under RFC 1982
(`compare_serial(soa_disk.serial, new_serial) > 0`) is dropped with no
change to the zone, no diff-log write and no timer change. -/
theorem c6_stale_serial_dropped (now : Int) (zone : XfrdZone)
    (packet : XfrPacket)
    (hid : packet.id = zone.query_id) (hrc : packet.rcode = RCODE_OK)
    (hqd : packet.qd_skip_ok = true) (han : packet.ancount ≠ 0)
    (hhd : packet.ans_head_ok = true) (hty : packet.ans_type = TYPE_SOA)
    (hkl : packet.ans_klass = CLASS_IN) (hrd : packet.ans_rdata_ok = true)
    (hacq : zone.soa_disk_acquired ≠ 0)
    (hold : compare_serial (ntohl zone.soa_disk.serial) packet.new_serial > 0) :
    xfrd_handle_received_xfr_packet now zone packet = (zone, []) := by
  rw [xfrd_handler_validated now zone packet hid hrc hqd han hhd hty hkl hrd]
  unfold xfrd_handle_xfr_serial
  rw [if_pos ⟨hacq, hold⟩]

theorem c6_stale_serial_dropped_witness :
    xfrd_handle_received_xfr_packet 1200 sampleZone samplePktOld =
      (sampleZone, []) :=
  c6_stale_serial_dropped 1200 sampleZone samplePktOld rfl rfl rfl
    (by decide) rfl rfl rfl rfl (by decide) (by decide)

/-- C5: a validated reply advertising exactly the current serial causes no
diff-log write; only when `soa_notified_acquired == 0` does the zone get a
new lease: `soa_disk_acquired := now`, `soa_nsd_acquired := now` exactly
when `soa_nsd.serial` equals the serial, state OK and timer
`now + refresh`; otherwise the zone is unchanged. -/
theorem c5_equal_serial_lease (now : Int) (zone : XfrdZone)
    (packet : XfrPacket)
    (hid : packet.id = zone.query_id) (hrc : packet.rcode = RCODE_OK)
    (hqd : packet.qd_skip_ok = true) (han : packet.ancount ≠ 0)
    (hhd : packet.ans_head_ok = true) (hty : packet.ans_type = TYPE_SOA)
    (hkl : packet.ans_klass = CLASS_IN) (hrd : packet.ans_rdata_ok = true)
    (hacq : zone.soa_disk_acquired ≠ 0)
    (heq : ntohl zone.soa_disk.serial = packet.new_serial) :
    (xfrd_handle_received_xfr_packet now zone packet).2 = [] ∧
    (zone.soa_notified_acquired ≠ 0 →
      (xfrd_handle_received_xfr_packet now zone packet).1 = zone) ∧
    (zone.soa_notified_acquired = 0 →
      ntohl zone.soa_nsd.serial = packet.new_serial →
      (xfrd_handle_received_xfr_packet now zone packet).1 =
        { zone with
          soa_disk_acquired := now
          soa_nsd_acquired := now
          zone_state := ZoneState.ok
          timer_armed := true
          timeout := now + (ntohl zone.soa_disk.refresh : Int) }) ∧
    (zone.soa_notified_acquired = 0 →
      ntohl zone.soa_nsd.serial ≠ packet.new_serial →
      (xfrd_handle_received_xfr_packet now zone packet).1 =
        { zone with
          soa_disk_acquired := now
          zone_state := ZoneState.ok
          timer_armed := true
          timeout := now + (ntohl zone.soa_disk.refresh : Int) }) := by
  rw [xfrd_handler_validated now zone packet hid hrc hqd han hhd hty hkl hrd]
  unfold xfrd_handle_xfr_serial
  have hngt : ¬ (zone.soa_disk_acquired ≠ 0 ∧
      compare_serial (ntohl zone.soa_disk.serial) packet.new_serial > 0) := by
    rw [← heq, compare_serial_self]
    simp
  rw [if_neg hngt, if_pos ⟨hacq, heq⟩]
  refine ⟨?_, ?_, ?_, ?_⟩
  · split
    · rfl
    · rfl
  · intro h
    rw [if_neg h]
  · intro h hn
    rw [if_pos h]
    dsimp only
    rw [if_pos hn]
    rfl
  · intro h hn
    rw [if_pos h]
    dsimp only
    rw [if_neg hn]
    rfl

theorem c5_equal_serial_lease_witness :
    (xfrd_handle_received_xfr_packet 1200 sampleZone samplePktSame).2 = [] ∧
    (xfrd_handle_received_xfr_packet 1200 sampleZone samplePktSame).1 =
      { sampleZone with
        soa_disk_acquired := 1200
        soa_nsd_acquired := 1200
        zone_state := ZoneState.ok
        timer_armed := true
        timeout := 1200 + (ntohl sampleZone.soa_disk.refresh : Int) } := by
  have h := c5_equal_serial_lease 1200 sampleZone samplePktSame rfl rfl rfl
    (by decide) rfl rfl rfl rfl (by decide) (by decide)
  exact ⟨h.1, h.2.2.1 rfl (by decide)⟩

/-- C2: the full-transfer commit path (validated reply, no TC,
`ancount >= 2`, serial strictly newer under RFC 1982): exactly one diff
packet record then one diff commit record, `soa_disk_acquired := now`,
`soa_disk.serial := htonl(new_serial)` with every other SOA field of
`soa_disk` unchanged, state OK and timer `soa_disk_acquired + refresh`. -/
theorem c2_commit_path (now : Int) (zone : XfrdZone) (packet : XfrPacket)
    (hid : packet.id = zone.query_id) (hrc : packet.rcode = RCODE_OK)
    (hqd : packet.qd_skip_ok = true) (hhd : packet.ans_head_ok = true)
    (hty : packet.ans_type = TYPE_SOA) (hkl : packet.ans_klass = CLASS_IN)
    (hrd : packet.ans_rdata_ok = true) (htc : packet.tc = false)
    (han : 2 ≤ packet.ancount) (hacq : zone.soa_disk_acquired ≠ 0)
    (hnew : compare_serial (ntohl zone.soa_disk.serial) packet.new_serial < 0) :
    (xfrd_handle_received_xfr_packet now zone packet).2 =
      [XfrdEffect.diffWritePacket,
       XfrdEffect.diffWriteCommit zone.apex_str packet.new_serial] ∧
    (xfrd_handle_received_xfr_packet now zone packet).1 =
      { zone with
        soa_disk_acquired := now
        soa_disk := { zone.soa_disk with serial := htonl packet.new_serial }
        zone_state := ZoneState.ok
        timer_armed := true
        timeout := now + (ntohl zone.soa_disk.refresh : Int) } := by
  have hne : ¬ (zone.soa_disk_acquired ≠ 0 ∧
      ntohl zone.soa_disk.serial = packet.new_serial) := by
    rintro ⟨-, e⟩
    rw [e, compare_serial_self] at hnew
    exact absurd hnew (by decide)
  have hngt : ¬ (zone.soa_disk_acquired ≠ 0 ∧
      compare_serial (ntohl zone.soa_disk.serial) packet.new_serial > 0) := by
    rintro ⟨-, hgt⟩
    omega
  have han0 : packet.ancount ≠ 0 := by omega
  have hanlt : ¬ packet.ancount < 2 := by omega
  rw [xfrd_handler_validated now zone packet hid hrc hqd han0 hhd hty hkl hrd]
  unfold xfrd_handle_xfr_serial
  rw [if_neg hngt, if_neg hne, if_neg (by simp [htc]), if_neg hanlt]
  unfold xfrd_set_timer
  exact ⟨rfl, rfl⟩

theorem c2_commit_path_witness :
    (xfrd_handle_received_xfr_packet 1200 sampleZone samplePktCommit).2 =
      [XfrdEffect.diffWritePacket,
       XfrdEffect.diffWriteCommit sampleZone.apex_str
         samplePktCommit.new_serial] ∧
    (xfrd_handle_received_xfr_packet 1200 sampleZone samplePktCommit).1 =
      { sampleZone with
        soa_disk_acquired := 1200
        soa_disk := { sampleZone.soa_disk with
          serial := htonl samplePktCommit.new_serial }
        zone_state := ZoneState.ok
        timer_armed := true
        timeout := 1200 + (ntohl sampleZone.soa_disk.refresh : Int) } :=
  c2_commit_path 1200 sampleZone samplePktCommit rfl rfl rfl rfl rfl rfl rfl
    rfl (by decide) (by decide) (by decide)

/-! ## TCP pool invariants (C7) -/

/-- Branch equation of `xfrd_tcp_release`: empty FIFO. -/
theorem xfrd_tcp_release_nil (ok : ZoneId → Bool) (pool : XfrdPool)
    (z : ZoneId) (hq : pool.waiting_q = []) :
    xfrd_tcp_release ok pool z =
      { poolClearZone pool z with tcp_count := pool.tcp_count - 1 } := by
  unfold xfrd_tcp_release
  split
  · rfl
  · simp_all

/-- Branch equation of `xfrd_tcp_release`: full pool, waiting head, open
succeeds. -/
theorem xfrd_tcp_release_pop_ok (ok : ZoneId → Bool) (pool : XfrdPool)
    (z z2 : ZoneId) (rest : List ZoneId)
    (hq : pool.waiting_q = z2 :: rest)
    (hc : pool.tcp_count = XFRD_MAX_TCP) (ho : ok z2 = true) :
    xfrd_tcp_release ok pool z =
      poolHandOff (poolClearZone pool z) z2 rest ((pool.zones z).tcp_conn)
        true := by
  unfold xfrd_tcp_release
  split
  · simp_all
  · rename_i z2h resth hqh
    rw [hq] at hqh
    cases hqh
    rw [if_pos hc, if_pos ho]

/-- Branch equation of `xfrd_tcp_release`: full pool, waiting head, open
fails (release recurses on the popped zone). -/
theorem xfrd_tcp_release_pop_fail (ok : ZoneId → Bool) (pool : XfrdPool)
    (z z2 : ZoneId) (rest : List ZoneId)
    (hq : pool.waiting_q = z2 :: rest)
    (hc : pool.tcp_count = XFRD_MAX_TCP) (ho : ok z2 = false) :
    xfrd_tcp_release ok pool z =
      xfrd_tcp_release ok
        (poolHandOff (poolClearZone pool z) z2 rest
          ((pool.zones z).tcp_conn) false) z2 := by
  conv_lhs => unfold xfrd_tcp_release
  split
  · simp_all
  · rename_i z2h resth hqh
    rw [hq] at hqh
    cases hqh
    rw [if_pos hc, if_neg (by simp [ho])]

/-- Branch equation of `xfrd_tcp_release`: FIFO non-empty but pool not full
(unreachable from the initial state; the source decrements). -/
theorem xfrd_tcp_release_cons_notfull (ok : ZoneId → Bool) (pool : XfrdPool)
    (z z2 : ZoneId) (rest : List ZoneId)
    (hq : pool.waiting_q = z2 :: rest)
    (hc : pool.tcp_count ≠ XFRD_MAX_TCP) :
    xfrd_tcp_release ok pool z =
      { poolClearZone pool z with tcp_count := pool.tcp_count - 1 } := by
  unfold xfrd_tcp_release
  split
  · simp_all
  · rename_i z2h resth hqh
    rw [hq] at hqh
    cases hqh
    rw [if_neg hc]

/-- The pool invariant: at most `MAX_TCP` connections in use, and a
non-empty wait FIFO only with a full pool. -/
def PoolInv (p : XfrdPool) : Prop :=
  p.tcp_count ≤ 8 ∧ (p.waiting_q ≠ [] → p.tcp_count = 8)

theorem xfrd_tcp_release_inv (ok : ZoneId → Bool) :
    ∀ (p : XfrdPool) (z : ZoneId), PoolInv p →
      PoolInv (xfrd_tcp_release ok p z) := by
  intro p z
  induction p, z using xfrd_tcp_release.induct ok with
  | case1 pool z hq =>
    intro h
    rw [xfrd_tcp_release_nil ok pool z hq]
    refine ⟨by have := h.1; simp [poolClearZone]; omega, ?_⟩
    simp [poolClearZone, hq]
  | case2 pool z z2 rest hq hc ho =>
    intro h
    rw [xfrd_tcp_release_pop_ok ok pool z z2 rest hq hc ho]
    have hc8 : pool.tcp_count = 8 := by simpa [XFRD_MAX_TCP] using hc
    refine ⟨?_, ?_⟩ <;> simp [poolHandOff, poolClearZone, hc8]
  | case3 pool z z2 rest hq hc ho ih =>
    intro h
    rw [xfrd_tcp_release_pop_fail ok pool z z2 rest hq (by simpa using hc)
      (by simpa using ho)]
    apply ih
    have hc8 : pool.tcp_count = 8 := by simpa [XFRD_MAX_TCP] using hc
    refine ⟨?_, ?_⟩ <;> simp [poolHandOff, poolClearZone, hc8]
  | case4 pool z z2 rest hq hc =>
    intro h
    have : pool.tcp_count = 8 := h.2 (by simp [hq])
    exact absurd (by rw [this]; rfl) hc

theorem xfrd_tcp_obtain_inv (ok : ZoneId → Bool) (p : XfrdPool) (z : ZoneId)
    (h : PoolInv p) : PoolInv (xfrd_tcp_obtain ok p z) := by
  unfold xfrd_tcp_obtain XFRD_MAX_TCP
  split
  case isTrue hlt =>
    have hqnil : p.waiting_q = [] := by
      by_contra hne
      have := h.2 hne
      omega
    dsimp only
    split
    case h_1 i hfind =>
      split
      case isTrue hok =>
        exact ⟨by dsimp only; omega, by simp [hqnil]⟩
      case isFalse hok =>
        apply xfrd_tcp_release_inv
        exact ⟨by dsimp only; omega, by simp [hqnil]⟩
    case h_2 hfind =>
      exact ⟨by dsimp only; omega, by simp [hqnil]⟩
  case isFalse hge =>
    have h8 : p.tcp_count = 8 := by
      have := h.1
      omega
    exact ⟨by simp [h8], fun _ => by simp [h8]⟩

theorem poolStep_inv (p : XfrdPool) (op : PoolOp) (h : PoolInv p) :
    PoolInv (poolStep p op) := by
  cases op with
  | obtain z ok => exact xfrd_tcp_obtain_inv ok p z h
  | release z ok => exact xfrd_tcp_release_inv ok p z h

theorem poolRun_inv : ∀ (ops : List PoolOp) (p : XfrdPool), PoolInv p →
    PoolInv (poolRun p ops) := by
  intro ops
  induction ops with
  | nil => intro p h; exact h
  | cons op rest ih =>
    intro p h
    exact ih (poolStep p op) (poolStep_inv p op h)

theorem initPool_inv : PoolInv initPool :=
  ⟨by simp [initPool], fun h => absurd rfl h⟩

/-- C7: over every sequence of tcp-obtain/tcp-release operations from the
initial pool, `tcp_count` never exceeds `MAX_TCP` = 8; obtain with a free
pool assigns the first free slot and increments `tcp_count`, obtain with a
full pool appends the zone to the FIFO tail with `waiting` set and leaves
`tcp_count` alone; release hands the freed slot to the FIFO head without
changing `tcp_count` when a zone waits (the pool being full then), and
decrements `tcp_count` when none waits. -/
theorem c7_tcp_pool_bound :
    (∀ ops : List PoolOp, (poolRun initPool ops).tcp_count ≤ 8) ∧
    (∀ (p : XfrdPool) (z : ZoneId) (ok : ZoneId → Bool) (i : Nat),
      p.tcp_count < 8 →
      p.slot_fd.findIdx? (fun b => !b) = some i →
      ok z = true →
      (xfrd_tcp_obtain ok p z).tcp_count = p.tcp_count + 1 ∧
      ((xfrd_tcp_obtain ok p z).zones z).tcp_conn = (i : Int) ∧
      ((xfrd_tcp_obtain ok p z).zones z).tcp_waiting = false ∧
      (xfrd_tcp_obtain ok p z).waiting_q = p.waiting_q) ∧
    (∀ (p : XfrdPool) (z : ZoneId) (ok : ZoneId → Bool),
      ¬ p.tcp_count < 8 →
      (xfrd_tcp_obtain ok p z).tcp_count = p.tcp_count ∧
      (xfrd_tcp_obtain ok p z).waiting_q = p.waiting_q ++ [z] ∧
      ((xfrd_tcp_obtain ok p z).zones z).tcp_waiting = true) ∧
    (∀ (p : XfrdPool) (z z2 : ZoneId) (rest : List ZoneId)
      (ok : ZoneId → Bool),
      p.waiting_q = z2 :: rest → p.tcp_count = 8 → ok z2 = true →
      (xfrd_tcp_release ok p z).tcp_count = p.tcp_count ∧
      ((xfrd_tcp_release ok p z).zones z2).tcp_conn =
        (p.zones z).tcp_conn ∧
      (xfrd_tcp_release ok p z).waiting_q = rest) ∧
    (∀ (p : XfrdPool) (z : ZoneId) (ok : ZoneId → Bool),
      p.waiting_q = [] →
      (xfrd_tcp_release ok p z).tcp_count = p.tcp_count - 1) := by
  refine ⟨?_, ?_, ?_, ?_, ?_⟩
  · intro ops
    exact (poolRun_inv ops initPool initPool_inv).1
  · intro p z ok i hlt hfind hok
    unfold xfrd_tcp_obtain XFRD_MAX_TCP
    rw [if_pos hlt]
    dsimp only
    rw [hfind]
    dsimp only
    rw [if_pos hok]
    refine ⟨rfl, by simp, by simp, rfl⟩
  · intro p z ok hge
    unfold xfrd_tcp_obtain XFRD_MAX_TCP
    rw [if_neg hge]
    refine ⟨rfl, rfl, by simp⟩
  · intro p z z2 rest ok hq hc hok
    rw [xfrd_tcp_release_pop_ok ok p z z2 rest hq
      (by simpa [XFRD_MAX_TCP] using hc) hok]
    refine ⟨by simp [poolHandOff, poolClearZone], ?_,
      by simp [poolHandOff, poolClearZone]⟩
    simp [poolHandOff, poolClearZone]
  · intro p z ok hq
    rw [xfrd_tcp_release_nil ok p z hq]

theorem c7_tcp_pool_bound_witness :
    (poolRun initPool
      [PoolOp.obtain 1 (fun _ => true),
       PoolOp.obtain 2 (fun _ => true)]).tcp_count ≤ 8 ∧
    (xfrd_tcp_obtain (fun _ => true) initPool 1).tcp_count =
      initPool.tcp_count + 1 ∧
    (xfrd_tcp_release (fun _ => true) initPool 1).tcp_count =
      initPool.tcp_count - 1 := by
  refine ⟨c7_tcp_pool_bound.1 [PoolOp.obtain 1 (fun _ => true),
      PoolOp.obtain 2 (fun _ => true)],
    (c7_tcp_pool_bound.2.1 initPool 1 (fun _ => true) 0 (by decide)
      (by decide) rfl).1,
    c7_tcp_pool_bound.2.2.2.2 initPool 1 (fun _ => true) rfl⟩

/-! ## State-file round trip (C8) -/

/-- A zone as `sampleZone` but in state OK with a pending notify stamp. -/
def sampleZoneNtf : XfrdZone :=
  { sampleZone with
    zone_state := ZoneState.ok
    soa_notified := sampleSoa
    soa_notified_acquired := 900 }

/-- Lines a reader read never sees tokens from: empty, or opening with a
`#` word. -/
def CommentLines (ls : List (List Tok)) : Prop :=
  ∀ l ∈ ls, l = [] ∨ ∃ t ts, l = t :: ts ∧ tokIsComment t = true

theorem commentLines_nil : CommentLines [] := by
  intro l hl
  cases hl

theorem commentLines_cons_nil (ls : List (List Tok)) (h : CommentLines ls) :
    CommentLines ([] :: ls) := by
  intro l hl
  rcases List.mem_cons.mp hl with hl | hl
  · exact Or.inl hl
  · exact h l hl

theorem commentLines_cons (t : Tok) (ts : List Tok) (ls : List (List Tok))
    (ht : tokIsComment t = true) (h : CommentLines ls) :
    CommentLines ((t :: ts) :: ls) := by
  intro l hl
  rcases List.mem_cons.mp hl with hl | hl
  · exact Or.inr ⟨t, ts, hl, ht⟩
  · exact h l hl

theorem commentLines_append (a b : List (List Tok)) (ha : CommentLines a)
    (hb : CommentLines b) : CommentLines (a ++ b) := by
  intro l hl
  rcases List.mem_append.mp hl with hl | hl
  · exact ha l hl
  · exact hb l hl

/-- The tokenizer skips leading comment and empty lines. -/
theorem xfrd_read_token_skip (pre : List (List Tok)) :
    ∀ (f : List (List Tok)), CommentLines pre →
      xfrd_read_token (pre ++ f) = xfrd_read_token f := by
  induction pre with
  | nil => intro f _; rfl
  | cons l ls ih =>
    intro f h
    have hl := h l (List.mem_cons_self l ls)
    have hls : CommentLines ls := fun x hx => h x (List.mem_cons_of_mem l hx)
    rcases hl with hl | ⟨t, ts, hl, ht⟩
    · subst hl
      rw [List.cons_append]
      rw [show xfrd_read_token (([] : List Tok) :: (ls ++ f)) =
        xfrd_read_token (ls ++ f) from rfl]
      exact ih f hls
    · subst hl
      rw [List.cons_append]
      rw [show xfrd_read_token ((t :: ts) :: (ls ++ f)) =
        (if tokIsComment t = true then xfrd_read_token (ls ++ f)
          else some (t, ts :: (ls ++ f))) from rfl]
      rw [ht]
      rw [if_pos rfl]
      exact ih f hls

theorem xfrd_read_token_cons (t : Tok) (ts : List Tok)
    (rest : List (List Tok)) (h : tokIsComment t = false) :
    xfrd_read_token ((t :: ts) :: rest) = some (t, ts :: rest) := by
  unfold xfrd_read_token
  rw [h]
  rfl

theorem toInt32_small (v : Int) (h0 : 0 ≤ v) (h1 : v < 2147483648) :
    toInt32 v = v := by
  unfold toInt32
  omega

theorem i32_roundtrip (v : Nat) (h : v < 4294967296) :
    ((toInt32 (v : Int)) % 4294967296).toNat = v := by
  unfold toInt32
  omega

theorem byteswap16_lt (x : Nat) : byteswap16 x < 65536 := by
  unfold byteswap16
  have : x % 256 < 256 := Nat.mod_lt _ (by decide)
  have : x / 256 % 256 < 256 := Nat.mod_lt _ (by decide)
  omega

theorem byteswap16_involutive (x : Nat) (hx : x < 65536) :
    byteswap16 (byteswap16 x) = x := by
  have h1 : (x % 256 * 256 + x / 256 % 256) % 256 = x / 256 % 256 := by omega
  have h2 : (x % 256 * 256 + x / 256 % 256) / 256 = x % 256 := by omega
  show byteswap16 (x % 256 * 256 + x / 256 % 256) = x
  unfold byteswap16
  rw [h1, h2]
  omega

theorem tokIsComment_num (n : Int) : tokIsComment (Tok.num n) = false := rfl

theorem rt_cons_w (s : String) (ts : List Tok) (rest : List (List Tok))
    (h : tokIsComment (Tok.w s) = false) :
    xfrd_read_token ((Tok.w s :: ts) :: rest) = some (Tok.w s, ts :: rest) :=
  xfrd_read_token_cons _ _ _ h

theorem rt_cons_num (n : Int) (ts : List Tok) (rest : List (List Tok)) :
    xfrd_read_token ((Tok.num n :: ts) :: rest) =
      some (Tok.num n, ts :: rest) :=
  xfrd_read_token_cons _ _ _ rfl

theorem rt_cons_skip (t : Tok) (ts : List Tok) (rest : List (List Tok))
    (h : tokIsComment t = true) :
    xfrd_read_token ((t :: ts) :: rest) = xfrd_read_token rest := by
  rw [show ((t :: ts) :: rest) = [t :: ts] ++ rest from rfl]
  exact xfrd_read_token_skip [t :: ts] rest
    (commentLines_cons t ts [] h commentLines_nil)

theorem rt_cons_nil (rest : List (List Tok)) :
    xfrd_read_token (([] : List Tok) :: rest) = xfrd_read_token rest := rfl

theorem hash_comment : tokIsComment (Tok.w "#") = true := by decide

theorem check_str_hit (s : String) (ts : List Tok) (rest : List (List Tok))
    (h : tokIsComment (Tok.w s) = false) :
    xfrd_read_check_str s ((Tok.w s :: ts) :: rest) = some (ts :: rest) := by
  unfold xfrd_read_check_str
  rw [rt_cons_w s ts rest h]
  simp

theorem read_i16_num (n : Int) (ts : List Tok) (rest : List (List Tok)) :
    xfrd_read_i16 ((Tok.num n :: ts) :: rest) =
      some ((n % 65536).toNat, ts :: rest) := by
  unfold xfrd_read_i16
  rw [rt_cons_num]
  rfl

theorem read_i32_num (n : Int) (ts : List Tok) (rest : List (List Tok)) :
    xfrd_read_i32 ((Tok.num n :: ts) :: rest) =
      some ((n % 4294967296).toNat, ts :: rest) := by
  unfold xfrd_read_i32
  rw [rt_cons_num]
  rfl

theorem read_time_num (n : Int) (ts : List Tok) (rest : List (List Tok)) :
    xfrd_read_time_t ((Tok.num n :: ts) :: rest) = some (n, ts :: rest) := by
  unfold xfrd_read_time_t
  rw [rt_cons_num]
  rfl

/-- A well-formed SOA snapshot for the round trip: fields within their
machine widths, non-NULL printable dnames, and all four printed timer
durations positive so the writer's trailing comment stays on one line. -/
structure WFSoa (soa : XfrdSoa) : Prop where
  typ_lt : soa.typ < 65536
  klass_lt : soa.klass < 65536
  rdc_lt : soa.rdata_count < 65536
  ttl_lt : soa.ttl < 4294967296
  serial_lt : soa.serial < 4294967296
  refresh_lt : soa.refresh < 4294967296
  retry_lt : soa.retry < 4294967296
  expire_lt : soa.expire < 4294967296
  minimum_lt : soa.minimum < 4294967296
  refresh_pos : ntohl soa.refresh ≠ 0
  retry_pos : ntohl soa.retry ≠ 0
  expire_pos : ntohl soa.expire ≠ 0
  minimum_pos : ntohl soa.minimum ≠ 0
  prim_ns_good : ∃ s, soa.prim_ns = some s ∧ s ≠ "" ∧
    tokIsComment (Tok.w s) = false
  email_good : ∃ s, soa.email = some s ∧ s ≠ "" ∧
    tokIsComment (Tok.w s) = false

theorem neatoFold_pos (a b c d : Nat) (na : a ≠ 0) (nb : b ≠ 0) (nc : c ≠ 0)
    (nd : d ≠ 0) :
    neatoFold [Tok.w "#"]
      [("refresh", a), ("retry", b), ("expire", c), ("minimum", d)] =
    [[Tok.w "#", Tok.w "refresh", Tok.w "=", Tok.w "d", Tok.w "retry",
      Tok.w "=", Tok.w "d", Tok.w "expire", Tok.w "=", Tok.w "d",
      Tok.w "minimum", Tok.w "=", Tok.w "d"]] := by
  unfold neatoFold
  simp [na, nb, nc, nd]

/-- The writer's SOA lines for an acquired snapshot with positive printed
ages and timers: one acquired line with a trailing comment, the data line,
one comment line. -/
theorem write_soa_lines_eq (now : Int) (id : String) (soa : XfrdSoa)
    (t : Int) (ht : t ≠ 0) (hdur : ((now - t) % 4294967296 : Int) ≠ 0)
    (hw : WFSoa soa) :
    xfrd_write_state_soa_lines now id soa t =
      [[Tok.w (id ++ "_acquired:"), Tok.num (toInt32 t),
        Tok.w "#", Tok.w "was", Tok.w "d", Tok.w "ago"],
       [Tok.w (id ++ ":"), Tok.num (toInt32 (ntohs soa.typ)),
        Tok.num (toInt32 (ntohs soa.klass)), Tok.num (toInt32 (ntohl soa.ttl)),
        Tok.num (toInt32 (ntohs soa.rdata_count)),
        Tok.w (dname_out soa.prim_ns), Tok.w (dname_out soa.email),
        Tok.num (toInt32 (ntohl soa.serial)),
        Tok.num (toInt32 (ntohl soa.refresh)),
        Tok.num (toInt32 (ntohl soa.retry)),
        Tok.num (toInt32 (ntohl soa.expire)),
        Tok.num (toInt32 (ntohl soa.minimum))],
       [Tok.w "#", Tok.w "refresh", Tok.w "=", Tok.w "d", Tok.w "retry",
        Tok.w "=", Tok.w "d", Tok.w "expire", Tok.w "=", Tok.w "d",
        Tok.w "minimum", Tok.w "=", Tok.w "d"]] := by
  unfold xfrd_write_state_soa_lines
  rw [if_neg ht, if_neg hdur,
    neatoFold_pos _ _ _ _ hw.refresh_pos hw.retry_pos hw.expire_pos
      hw.minimum_pos]
  rfl

theorem i16_roundtrip (v : Nat) (h : v < 65536) :
    ((toInt32 (v : Int)) % 65536).toNat = v := by
  unfold toInt32
  omega

theorem check_str_skip (s : String) (pre f : List (List Tok))
    (hp : CommentLines pre) :
    xfrd_read_check_str s (pre ++ f) = xfrd_read_check_str s f := by
  unfold xfrd_read_check_str
  rw [xfrd_read_token_skip pre f hp]

theorem check_str_comment (s : String) (t : Tok) (ts : List Tok)
    (r : List (List Tok)) (h : tokIsComment t = true) :
    xfrd_read_check_str s ((t :: ts) :: r) = xfrd_read_check_str s r := by
  unfold xfrd_read_check_str
  rw [rt_cons_skip t ts r h]

theorem dname_parse_w (s : String) (h : s ≠ "") :
    dname_parse_tok (Tok.w s) = some s := by
  simp [dname_parse_tok, h]

/-- Reading back one SOA block the writer produced gives exactly the stored
snapshot and stamp, leaving only comment lines before the remaining
stream. -/
theorem read_soa_of_write (now : Int) (id : String) (soa : XfrdSoa) (t : Int)
    (rest : List (List Tok))
    (hA : tokIsComment (Tok.w (id ++ "_acquired:")) = false)
    (hS : tokIsComment (Tok.w (id ++ ":")) = false)
    (hwz : t = 0 → soa = XfrdSoa.zero)
    (hts : 0 ≤ t) (htb : t < 2147483648)
    (hdur : t ≠ 0 → ((now - t) % 4294967296 : Int) ≠ 0)
    (hw : t ≠ 0 → WFSoa soa) :
    ∃ pre, CommentLines pre ∧
      xfrd_read_state_soa (id ++ "_acquired:") (id ++ ":")
        (xfrd_write_state_soa_lines now id soa t ++ rest) =
      some (soa, t, pre ++ rest) := by
  by_cases ht : t = 0
  · refine ⟨[[]], commentLines_cons_nil [] commentLines_nil, ?_⟩
    subst ht
    rw [hwz rfl]
    unfold xfrd_write_state_soa_lines
    rw [if_pos rfl]
    unfold xfrd_read_state_soa
    simp only [List.cons_append, List.nil_append, check_str_hit _ _ _ hA,
      read_time_num]
    rfl
  · have hW := hw ht
    obtain ⟨pn, hpn, hpne, hpnc⟩ := hW.prim_ns_good
    obtain ⟨em, hem, heme, hemc⟩ := hW.email_good
    have hdn : dname_out soa.prim_ns = pn := by rw [hpn]; rfl
    have hde : dname_out soa.email = em := by rw [hem]; rfl
    have ht32 : toInt32 t = t := toInt32_small t hts htb
    have e1 := i16_roundtrip (ntohs soa.typ) (byteswap16_lt _)
    have e2 := i16_roundtrip (ntohs soa.klass) (byteswap16_lt _)
    have e3 := i32_roundtrip (ntohl soa.ttl) (byteswap32_lt _)
    have e4 := i16_roundtrip (ntohs soa.rdata_count) (byteswap16_lt _)
    have e5 := i32_roundtrip (ntohl soa.serial) (byteswap32_lt _)
    have e6 := i32_roundtrip (ntohl soa.refresh) (byteswap32_lt _)
    have e7 := i32_roundtrip (ntohl soa.retry) (byteswap32_lt _)
    have e8 := i32_roundtrip (ntohl soa.expire) (byteswap32_lt _)
    have e9 := i32_roundtrip (ntohl soa.minimum) (byteswap32_lt _)
    have f1 := byteswap16_involutive soa.typ hW.typ_lt
    have f2 := byteswap16_involutive soa.klass hW.klass_lt
    have f3 := byteswap32_involutive soa.ttl hW.ttl_lt
    have f4 := byteswap16_involutive soa.rdata_count hW.rdc_lt
    have f5 := byteswap32_involutive soa.serial hW.serial_lt
    have f6 := byteswap32_involutive soa.refresh hW.refresh_lt
    have f7 := byteswap32_involutive soa.retry hW.retry_lt
    have f8 := byteswap32_involutive soa.expire hW.expire_lt
    have f9 := byteswap32_involutive soa.minimum hW.minimum_lt
    refine ⟨[[], [Tok.w "#", Tok.w "refresh", Tok.w "=", Tok.w "d",
      Tok.w "retry", Tok.w "=", Tok.w "d", Tok.w "expire", Tok.w "=",
      Tok.w "d", Tok.w "minimum", Tok.w "=", Tok.w "d"]],
      commentLines_cons_nil _ (commentLines_cons _ _ _ hash_comment
        commentLines_nil), ?_⟩
    rw [write_soa_lines_eq now id soa t ht (hdur ht) hW]
    unfold xfrd_read_state_soa
    simp only [List.cons_append, List.nil_append, hdn, hde,
      check_str_hit _ _ _ hA, check_str_hit _ _ _ hS,
      check_str_comment _ _ _ _ hash_comment,
      read_time_num, read_i16_num, read_i32_num,
      rt_cons_w _ _ _ hpnc, rt_cons_w _ _ _ hemc,
      dname_parse_w pn hpne, dname_parse_w em heme,
      ht32, ht, e1, e2, e3, e4, e5, e6, e7, e8, e9]
    unfold htons htonl ntohs ntohl at *
    rw [f1, f2, f3, f4, f5, f6, f7, f8, f9]
    rw [← hpn, ← hem]
    simp [ht]

theorem check_str_nil (s : String) (r : List (List Tok)) :
    xfrd_read_check_str s (([] : List Tok) :: r) = xfrd_read_check_str s r := by
  unfold xfrd_read_check_str
  rw [rt_cons_nil]

theorem read_state_soa_comment (idA idS : String) (t : Tok) (ts : List Tok)
    (r : List (List Tok)) (h : tokIsComment t = true) :
    xfrd_read_state_soa idA idS ((t :: ts) :: r) =
      xfrd_read_state_soa idA idS r := by
  unfold xfrd_read_state_soa
  rw [check_str_comment _ _ _ _ h]

theorem read_state_soa_nil (idA idS : String) (r : List (List Tok)) :
    xfrd_read_state_soa idA idS (([] : List Tok) :: r) =
      xfrd_read_state_soa idA idS r := by
  unfold xfrd_read_state_soa
  rw [check_str_nil]

theorem read_state_soa_skip (idA idS : String) (pre f : List (List Tok))
    (hp : CommentLines pre) :
    xfrd_read_state_soa idA idS (pre ++ f) =
      xfrd_read_state_soa idA idS f := by
  unfold xfrd_read_state_soa
  rw [check_str_skip _ _ _ hp]

theorem decode_encode (s : ZoneState) :
    ZoneState.decode (ZoneState.encode s) = s := by
  cases s <;> rfl

/-- A zone whose state the writer can persist and the reader parse back
verbatim: armed timer, machine-width fields, acquired stamps strictly in
the past, snapshots well-formed (or zeroed when never acquired). -/
structure WFZone (now : Int) (z : XfrdZone) : Prop where
  apex_ne : z.apex_str ≠ ""
  apex_nc : tokIsComment (Tok.w z.apex_str) = false
  armed : z.timer_armed = true
  timeout_nonneg : 0 ≤ z.timeout
  timeout_lt : z.timeout < 2147483648
  masnum_lt : z.master_num < 4294967296
  nsd_acq_nonneg : 0 ≤ z.soa_nsd_acquired
  nsd_acq_lt : z.soa_nsd_acquired < 2147483648
  nsd_acq_now : z.soa_nsd_acquired ≠ 0 → z.soa_nsd_acquired < now
  nsd_zero : z.soa_nsd_acquired = 0 → z.soa_nsd = XfrdSoa.zero
  nsd_wf : z.soa_nsd_acquired ≠ 0 → WFSoa z.soa_nsd
  disk_acq_nonneg : 0 ≤ z.soa_disk_acquired
  disk_acq_lt : z.soa_disk_acquired < 2147483648
  disk_acq_now : z.soa_disk_acquired ≠ 0 → z.soa_disk_acquired < now
  disk_zero : z.soa_disk_acquired = 0 → z.soa_disk = XfrdSoa.zero
  disk_wf : z.soa_disk_acquired ≠ 0 → WFSoa z.soa_disk
  ntf_acq_nonneg : 0 ≤ z.soa_notified_acquired
  ntf_acq_lt : z.soa_notified_acquired < 2147483648
  ntf_acq_now : z.soa_notified_acquired ≠ 0 → z.soa_notified_acquired < now
  ntf_zero : z.soa_notified_acquired = 0 → z.soa_notified = XfrdSoa.zero
  ntf_wf : z.soa_notified_acquired ≠ 0 → WFSoa z.soa_notified

/-- The parse image of a zone: its fields exactly as the writer printed
them. -/
def blockOfZone (z : XfrdZone) : ZoneBlock :=
  { name := z.apex_str
    state := z.zone_state.encode
    masnum := z.master_num
    timeoutv := z.timeout.toNat
    nsd := z.soa_nsd
    nsdAcq := z.soa_nsd_acquired
    disk := z.soa_disk
    diskAcq := z.soa_disk_acquired
    ntf := z.soa_notified
    ntfAcq := z.soa_notified_acquired }

theorem encode_lt (s : ZoneState) : (s.encode : Nat) < 4294967296 := by
  cases s <;> decide

/-- Reading back one zone block the writer produced parses to exactly the
zone's persisted fields. -/
theorem read_block_of_write (now : Int) (z : XfrdZone)
    (rest : List (List Tok)) (hnow : now < 2147483648)
    (hz : WFZone now z) :
    ∃ pre, CommentLines pre ∧
      xfrd_read_zone_block (xfrd_write_zone_lines now z ++ rest) =
        some (blockOfZone z, pre ++ rest) := by
  have hza : tokIsComment (Tok.w "zone:") = false := by decide
  have hna : tokIsComment (Tok.w "name:") = false := by decide
  have hsa : tokIsComment (Tok.w "state:") = false := by decide
  have hma : tokIsComment (Tok.w "master:") = false := by decide
  have hta : tokIsComment (Tok.w "next_timeout:") = false := by decide
  have hst : ¬ (z.zone_state.encode > 2) := by cases z.zone_state <;> decide
  have est : ((toInt32 (z.zone_state.encode : Int)) % 4294967296).toNat =
      z.zone_state.encode := i32_roundtrip _ (encode_lt _)
  have emas : ((toInt32 (z.master_num : Int)) % 4294967296).toNat =
      z.master_num := i32_roundtrip _ hz.masnum_lt
  have etim : ((toInt32 z.timeout) % 4294967296).toNat = z.timeout.toNat := by
    rw [← Int.toNat_of_nonneg hz.timeout_nonneg]
    exact i32_roundtrip _ (by have := hz.timeout_lt; omega)
  obtain ⟨p1, hp1, hs1⟩ := read_soa_of_write now "soa_nsd" z.soa_nsd
    z.soa_nsd_acquired
    (xfrd_write_state_soa_lines now "soa_disk" z.soa_disk z.soa_disk_acquired
      ++ (xfrd_write_state_soa_lines now "soa_notify" z.soa_notified
        z.soa_notified_acquired ++ ([[]] ++ rest)))
    (by decide) (by decide) hz.nsd_zero hz.nsd_acq_nonneg hz.nsd_acq_lt
    (fun hne => by have h1 := hz.nsd_acq_now hne
                   have h2 := hz.nsd_acq_nonneg
                   omega)
    hz.nsd_wf
  obtain ⟨p2, hp2, hs2⟩ := read_soa_of_write now "soa_disk" z.soa_disk
    z.soa_disk_acquired
    (xfrd_write_state_soa_lines now "soa_notify" z.soa_notified
      z.soa_notified_acquired ++ ([[]] ++ rest))
    (by decide) (by decide) hz.disk_zero hz.disk_acq_nonneg hz.disk_acq_lt
    (fun hne => by have h1 := hz.disk_acq_now hne
                   have h2 := hz.disk_acq_nonneg
                   omega)
    hz.disk_wf
  obtain ⟨p3, hp3, hs3⟩ := read_soa_of_write now "soa_notify" z.soa_notified
    z.soa_notified_acquired ([[]] ++ rest)
    (by decide) (by decide) hz.ntf_zero hz.ntf_acq_nonneg hz.ntf_acq_lt
    (fun hne => by have h1 := hz.ntf_acq_now hne
                   have h2 := hz.ntf_acq_nonneg
                   omega)
    hz.ntf_wf
  rw [show ("soa_nsd" ++ "_acquired:" : String) = "soa_nsd_acquired:"
    from by decide] at hs1
  rw [show ("soa_nsd" ++ ":" : String) = "soa_nsd:" from by decide] at hs1
  rw [show ("soa_disk" ++ "_acquired:" : String) = "soa_disk_acquired:"
    from by decide] at hs2
  rw [show ("soa_disk" ++ ":" : String) = "soa_disk:" from by decide] at hs2
  rw [show ("soa_notify" ++ "_acquired:" : String) = "soa_notify_acquired:"
    from by decide] at hs3
  rw [show ("soa_notify" ++ ":" : String) = "soa_notify:" from by decide] at hs3
  simp only [List.cons_append, List.nil_append, List.append_assoc]
    at hs1 hs2 hs3
  refine ⟨p3 ++ [[]], commentLines_append _ _ hp3
    (commentLines_cons_nil [] commentLines_nil), ?_⟩
  unfold xfrd_write_zone_lines
  rw [show (z.timer_armed = true) from hz.armed]
  by_cases hdt : ((z.timeout - now) % 4294967296 : Int) = 0
  · rw [if_pos rfl, if_pos hdt]
    unfold xfrd_read_zone_block
    simp only [List.cons_append, List.nil_append, List.append_assoc,
      check_str_hit _ _ _ hza, check_str_hit _ _ _ hna,
      check_str_hit _ _ _ hsa, check_str_hit _ _ _ hma,
      check_str_hit _ _ _ hta, check_str_nil,
      check_str_comment _ _ _ _ hash_comment,
      rt_cons_w _ _ _ hz.apex_nc, dname_parse_w _ hz.apex_ne,
      read_i32_num, est, emas, etim, hst,
      read_state_soa_comment _ _ _ _ _ hash_comment, read_state_soa_nil,
      hs1, read_state_soa_skip _ _ _ _ hp1,
      hs2, read_state_soa_skip _ _ _ _ hp2, hs3]
    simp [blockOfZone, List.append_assoc]
  · rw [if_pos rfl, if_neg hdt]
    unfold xfrd_read_zone_block
    simp only [List.cons_append, List.nil_append, List.append_assoc,
      check_str_hit _ _ _ hza, check_str_hit _ _ _ hna,
      check_str_hit _ _ _ hsa, check_str_hit _ _ _ hma,
      check_str_hit _ _ _ hta, check_str_nil,
      check_str_comment _ _ _ _ hash_comment,
      rt_cons_w _ _ _ hz.apex_nc, dname_parse_w _ hz.apex_ne,
      read_i32_num, est, emas, etim, hst,
      read_state_soa_comment _ _ _ _ _ hash_comment, read_state_soa_nil,
      hs1, read_state_soa_skip _ _ _ _ hp1,
      hs2, read_state_soa_skip _ _ _ _ hp2, hs3]
    simp [blockOfZone, List.append_assoc]

/-- The zone a restarted daemon holds after `xfrd_read_state` has replayed
one written block over the freshly initialised zone. -/
def expectedZone (now : Int) (z : XfrdZone) : XfrdZone :=
  xfrd_read_zone_apply now (blockOfZone z) (freshZone now z)

theorem xfrd_handle_incoming_soa_apex (now : Int) (z : XfrdZone)
    (soa : XfrdSoa) (acq : Int) :
    ((xfrd_handle_incoming_soa now z soa acq).1).apex_str = z.apex_str := by
  unfold xfrd_handle_incoming_soa xfrd_set_timer xfrd_set_refresh_now
  repeat' first
    | rfl
    | split
    | dsimp only

theorem xfrd_read_zone_apply_apex (now : Int) (b : ZoneBlock)
    (z : XfrdZone) :
    (xfrd_read_zone_apply now b z).apex_str = z.apex_str := by
  unfold xfrd_read_zone_apply xfrd_set_refresh_now
  repeat' first
    | rfl
    | rw [xfrd_handle_incoming_soa_apex]
    | split
    | dsimp only

theorem expectedZone_apex (now : Int) (z : XfrdZone) :
    (expectedZone now z).apex_str = z.apex_str := by
  unfold expectedZone
  rw [xfrd_read_zone_apply_apex]
  rfl

theorem map_update_skip (l : List XfrdZone) (f : XfrdZone → XfrdZone)
    (name : String) (h : ∀ w ∈ l, w.apex_str ≠ name) :
    l.map (fun w => if w.apex_str = name then f w else w) = l := by
  induction l with
  | nil => rfl
  | cons a as ih =>
    simp only [List.map_cons]
    rw [if_neg (h a (List.mem_cons_self a as)),
      ih (fun w hw => h w (List.mem_cons_of_mem a hw))]

theorem read_zone_block_skip (pre f : List (List Tok))
    (hp : CommentLines pre) :
    xfrd_read_zone_block (pre ++ f) = xfrd_read_zone_block f := by
  unfold xfrd_read_zone_block
  rw [check_str_skip _ _ _ hp]

/-- The zone loop of the reader over the zone blocks the writer emitted:
every block parses, and each updates exactly the registry entry carrying
its apex. -/
theorem read_zones_of_write (now : Int) (tail : List (List Tok))
    (hnow : now < 2147483648) :
    ∀ (todo done : List XfrdZone) (pre : List (List Tok)),
      CommentLines pre →
      (∀ z ∈ todo, WFZone now z) →
      (∀ d ∈ done, ∀ z ∈ todo, d.apex_str ≠ z.apex_str) →
      todo.Pairwise (fun a b => a.apex_str ≠ b.apex_str) →
      xfrd_read_zones now todo.length
        (done ++ todo.map (freshZone now))
        (pre ++ ((todo.map (xfrd_write_zone_lines now)).flatten ++ tail)) =
      done ++ todo.map (expectedZone now) := by
  intro todo
  induction todo with
  | nil =>
    intro done pre hp hwf hdz hpair
    simp [xfrd_read_zones]
  | cons z1 zs ih =>
    intro done pre hp hwf hdz hpair
    have hwf1 : WFZone now z1 := hwf z1 (List.mem_cons_self z1 zs)
    obtain ⟨p1, hp1, hb⟩ := read_block_of_write now z1
      ((zs.map (xfrd_write_zone_lines now)).flatten ++ tail) hnow hwf1
    have hz1zs : ∀ z ∈ zs, z.apex_str ≠ z1.apex_str := by
      intro z hz e
      exact (List.pairwise_cons.mp hpair).1 z hz e.symm
    show xfrd_read_zones now (zs.length + 1) _ _ = _
    unfold xfrd_read_zones
    rw [show ((z1 :: zs).map (xfrd_write_zone_lines now)).flatten =
      xfrd_write_zone_lines now z1 ++
        (zs.map (xfrd_write_zone_lines now)).flatten from by
      simp]
    rw [List.append_assoc, read_zone_block_skip _ _ hp, hb]
    dsimp only
    rw [show (blockOfZone z1).name = z1.apex_str from rfl]
    rw [show (z1 :: zs).map (freshZone now) =
      freshZone now z1 :: zs.map (freshZone now) from rfl]
    rw [show done ++ (freshZone now z1 :: zs.map (freshZone now)) =
      (done ++ [freshZone now z1]) ++ zs.map (freshZone now) from by simp]
    rw [List.map_append]
    rw [map_update_skip (zs.map (freshZone now)) _ _ (by
      intro w hw
      obtain ⟨z, hz, rfl⟩ := List.mem_map.mp hw
      exact hz1zs z hz)]
    rw [show (done ++ [freshZone now z1]).map
        (fun w => if w.apex_str = z1.apex_str then
          xfrd_read_zone_apply now (blockOfZone z1) w else w) =
      done ++ [expectedZone now z1] from by
      rw [List.map_append,
        map_update_skip done _ _ (fun d hd =>
          hdz d hd z1 (List.mem_cons_self z1 zs))]
      simp only [List.map_cons, List.map_nil]
      rw [show (freshZone now z1).apex_str = z1.apex_str from rfl,
        if_pos rfl]
      rfl]
    rw [show done ++ [expectedZone now z1] ++ zs.map (freshZone now) =
      (done ++ [expectedZone now z1]) ++ zs.map (freshZone now) from rfl]
    rw [ih (done ++ [expectedZone now z1]) p1 hp1
      (fun z hz => hwf z (List.mem_cons_of_mem z1 hz))
      (by
        intro d hd z hz
        rcases List.mem_append.mp hd with hd | hd
        · exact hdz d hd z (List.mem_cons_of_mem z1 hz)
        · rcases List.mem_singleton.mp hd with rfl
          rw [expectedZone_apex]
          exact fun e => hz1zs z hz e.symm)
      (List.pairwise_cons.mp hpair).2]
    simp

/-- The reader re-arms a zone for immediate refresh when the persisted
timer is 0, lies beyond `soa_disk_acquired + refresh`, or a notify stamp is
pending (`xfrd_read_state` line 681). -/
def ReadRefreshTrigger (z : XfrdZone) : Prop :=
  z.timeout = 0 ∨
  z.timeout - z.soa_disk_acquired > (ntohl z.soa_disk.refresh : Int) ∨
  z.soa_notified_acquired ≠ 0

/-- The reader marks a zone expired when its disk snapshot is older than
`expire` (`xfrd_read_state` line 688). -/
def ReadExpireTrigger (now : Int) (z : XfrdZone) : Prop :=
  z.soa_disk_acquired ≠ 0 ∧
  (now % 4294967296) - z.soa_disk_acquired > (ntohl z.soa_disk.expire : Int)

/-- What one written-and-reread zone looks like: every persisted field is
reproduced bit-identically except `zone_state` and `next_timeout`, which
the reader re-arms when its refresh or expiry checks fire. -/
theorem expectedZone_fields (now : Int) (z : XfrdZone) (hnow0 : 0 ≤ now)
    (hz : WFZone now z) :
    (expectedZone now z).master_num = z.master_num ∧
    (expectedZone now z).soa_nsd = z.soa_nsd ∧
    (expectedZone now z).soa_disk = z.soa_disk ∧
    (expectedZone now z).soa_notified = z.soa_notified ∧
    (expectedZone now z).soa_nsd_acquired = z.soa_nsd_acquired ∧
    (expectedZone now z).soa_disk_acquired = z.soa_disk_acquired ∧
    (expectedZone now z).soa_notified_acquired = z.soa_notified_acquired ∧
    (expectedZone now z).timer_armed = true ∧
    (ReadExpireTrigger now z →
      (expectedZone now z).zone_state = ZoneState.expired ∧
      (expectedZone now z).timeout = now) ∧
    (¬ ReadExpireTrigger now z → ReadRefreshTrigger z →
      (expectedZone now z).zone_state = ZoneState.refreshing ∧
      (expectedZone now z).timeout = now) ∧
    (¬ ReadExpireTrigger now z → ¬ ReadRefreshTrigger z →
      (expectedZone now z).zone_state = z.zone_state ∧
      (expectedZone now z).timeout = z.timeout) := by
  have a1 : z.soa_nsd_acquired ≤ now := by
    by_cases h : z.soa_nsd_acquired = 0
    · rw [h]; exact hnow0
    · exact le_of_lt (hz.nsd_acq_now h)
  have a2 : z.soa_disk_acquired ≤ now := by
    by_cases h : z.soa_disk_acquired = 0
    · rw [h]; exact hnow0
    · exact le_of_lt (hz.disk_acq_now h)
  have a3 : z.soa_notified_acquired ≤ now := by
    by_cases h : z.soa_notified_acquired = 0
    · rw [h]; exact hnow0
    · exact le_of_lt (hz.ntf_acq_now h)
  have htn : ((z.timeout.toNat : Int)) = z.timeout :=
    Int.toNat_of_nonneg hz.timeout_nonneg
  have hskip : ¬ (z.soa_nsd_acquired > now + 15 ∨
      z.soa_disk_acquired > now + 15 ∨
      z.soa_notified_acquired > now + 15) := by
    push_neg
    exact ⟨by omega, by omega, by omega⟩
  have hreff : (z.timeout.toNat = 0 ∨
      (z.timeout.toNat : Int) - z.soa_disk_acquired >
        (ntohl z.soa_disk.refresh : Int) ∨
      z.soa_notified_acquired ≠ 0) ↔ ReadRefreshTrigger z := by
    unfold ReadRefreshTrigger
    rw [htn]
    constructor
    · rintro (h | h | h)
      · exact Or.inl (by omega)
      · exact Or.inr (Or.inl h)
      · exact Or.inr (Or.inr h)
    · rintro (h | h | h)
      · exact Or.inl (by omega)
      · exact Or.inr (Or.inl h)
      · exact Or.inr (Or.inr h)
  unfold expectedZone xfrd_read_zone_apply blockOfZone freshZone
    xfrd_set_refresh_now
  dsimp only
  rw [if_neg hskip, decode_encode]
  by_cases hex : ReadExpireTrigger now z
  · rw [if_pos (show z.soa_disk_acquired ≠ 0 ∧
      now % 4294967296 - z.soa_disk_acquired >
        (ntohl z.soa_disk.expire : Int) from hex)]
    by_cases hre : ReadRefreshTrigger z
    · rw [if_pos (hreff.mpr hre)]
      refine ⟨rfl, rfl, rfl, rfl, rfl, rfl, rfl, rfl, fun _ => ⟨rfl, rfl⟩,
        fun h _ => absurd hex h, fun h _ => absurd hex h⟩
    · rw [if_neg (fun c => hre (hreff.mp c))]
      refine ⟨rfl, rfl, rfl, rfl, rfl, rfl, rfl, rfl, fun _ => ⟨rfl, rfl⟩,
        fun h _ => absurd hex h, fun h _ => absurd hex h⟩
  · rw [if_neg (show ¬ (z.soa_disk_acquired ≠ 0 ∧
      now % 4294967296 - z.soa_disk_acquired >
        (ntohl z.soa_disk.expire : Int)) from hex)]
    by_cases hre : ReadRefreshTrigger z
    · rw [if_pos (hreff.mpr hre)]
      refine ⟨rfl, rfl, rfl, rfl, rfl, rfl, rfl, rfl,
        fun h => absurd h hex, fun _ _ => ⟨rfl, rfl⟩,
        fun _ h => absurd hre h⟩
    · rw [if_neg (fun c => hre (hreff.mp c))]
      refine ⟨rfl, rfl, rfl, rfl, rfl, rfl, rfl, rfl,
        fun h => absurd h hex, fun _ h => absurd h hre,
        fun _ _ => ⟨rfl, htn⟩⟩

/-- C8 (amended): writing the state file and reading it back into the same
configured zone set reproduces the master index, the three acquired times
and the three SOA snapshots of every zone bit-identically; `state` and
`next_timeout` are reproduced exactly when the reader's re-arm checks do
not fire (timer non-zero and within `acquired + refresh`, no pending
notify stamp, not past `acquired + expire`), and are otherwise re-armed to
now with state REFRESHING resp. EXPIRED. -/
theorem c8_state_file_roundtrip (now : Int) (reg : List XfrdZone)
    (hnow0 : 0 ≤ now) (hnow : now < 2147483648)
    (hlen : reg.length < 4294967296)
    (hwf : ∀ z ∈ reg, WFZone now z)
    (hpair : reg.Pairwise (fun a b => a.apex_str ≠ b.apex_str)) :
    xfrd_read_state now (reg.map (freshZone now))
        (xfrd_write_state now reg) =
      reg.map (expectedZone now) ∧
    ∀ z ∈ reg,
      (expectedZone now z).master_num = z.master_num ∧
      (expectedZone now z).soa_nsd = z.soa_nsd ∧
      (expectedZone now z).soa_disk = z.soa_disk ∧
      (expectedZone now z).soa_notified = z.soa_notified ∧
      (expectedZone now z).soa_nsd_acquired = z.soa_nsd_acquired ∧
      (expectedZone now z).soa_disk_acquired = z.soa_disk_acquired ∧
      (expectedZone now z).soa_notified_acquired = z.soa_notified_acquired ∧
      (expectedZone now z).timer_armed = true ∧
      (ReadExpireTrigger now z →
        (expectedZone now z).zone_state = ZoneState.expired ∧
        (expectedZone now z).timeout = now) ∧
      (¬ ReadExpireTrigger now z → ReadRefreshTrigger z →
        (expectedZone now z).zone_state = ZoneState.refreshing ∧
        (expectedZone now z).timeout = now) ∧
      (¬ ReadExpireTrigger now z → ¬ ReadRefreshTrigger z →
        (expectedZone now z).zone_state = z.zone_state ∧
        (expectedZone now z).timeout = z.timeout) := by
  refine ⟨?_, fun z hz => expectedZone_fields now z hnow0 (hwf z hz)⟩
  have hmg : tokIsComment (Tok.w XFRD_FILE_MAGIC) = false := by decide
  have hft : tokIsComment (Tok.w "filetime:") = false := by decide
  have hnz : tokIsComment (Tok.w "numzones:") = false := by decide
  have eft : (((toInt32 now) % 4294967296).toNat : Int) = now := by
    unfold toInt32
    omega
  have hchk : ¬ ((((toInt32 now) % 4294967296).toNat : Int) > now + 15) := by
    rw [eft]
    omega
  have elen : (((reg.length : Int)) % 4294967296).toNat = reg.length := by
    omega
  have hrun := read_zones_of_write now [[Tok.w XFRD_FILE_MAGIC]] hnow reg
    [] [[], []]
    (commentLines_cons_nil _ (commentLines_cons_nil _ commentLines_nil))
    hwf (by intro d hd; cases hd) hpair
  simp only [List.cons_append, List.nil_append] at hrun
  unfold xfrd_write_state xfrd_read_state
  simp only [List.cons_append, List.nil_append,
    check_str_hit _ _ _ hmg, check_str_hit _ _ _ hft,
    check_str_hit _ _ _ hnz, check_str_nil,
    check_str_comment _ _ _ _ hash_comment,
    read_i32_num, hchk, elen, if_false]
  rw [hrun]

/-- The well-formedness of the sample SOA. -/
theorem sampleSoa_wf : WFSoa sampleSoa :=
  ⟨by decide, by decide, by decide, by decide, by decide, by decide,
   by decide, by decide, by decide, by decide, by decide, by decide,
   by decide, ⟨"ns.example.com.", rfl, by decide, by decide⟩,
   ⟨"root.example.com.", rfl, by decide, by decide⟩⟩

/-- The well-formedness of the sample zone at time 1005. -/
theorem sampleZone_wf : WFZone 1005 sampleZone :=
  ⟨by decide, by decide, rfl, by decide, by decide, by decide,
   by decide, by decide, fun _ => by decide,
   fun h => absurd h (by decide), fun _ => sampleSoa_wf,
   by decide, by decide, fun _ => by decide,
   fun h => absurd h (by decide), fun _ => sampleSoa_wf,
   by decide, by decide, fun h => absurd rfl h,
   fun _ => rfl, fun h => absurd rfl h⟩

theorem c8_state_file_roundtrip_witness :
    xfrd_read_state 1005 ([sampleZone].map (freshZone 1005))
        (xfrd_write_state 1005 [sampleZone]) =
      [sampleZone].map (expectedZone 1005) ∧
    ∀ z ∈ [sampleZone],
      (expectedZone 1005 z).master_num = z.master_num ∧
      (expectedZone 1005 z).soa_nsd = z.soa_nsd ∧
      (expectedZone 1005 z).soa_disk = z.soa_disk ∧
      (expectedZone 1005 z).soa_notified = z.soa_notified ∧
      (expectedZone 1005 z).soa_nsd_acquired = z.soa_nsd_acquired ∧
      (expectedZone 1005 z).soa_disk_acquired = z.soa_disk_acquired ∧
      (expectedZone 1005 z).soa_notified_acquired =
        z.soa_notified_acquired ∧
      (expectedZone 1005 z).timer_armed = true ∧
      (ReadExpireTrigger 1005 z →
        (expectedZone 1005 z).zone_state = ZoneState.expired ∧
        (expectedZone 1005 z).timeout = 1005) ∧
      (¬ ReadExpireTrigger 1005 z → ReadRefreshTrigger z →
        (expectedZone 1005 z).zone_state = ZoneState.refreshing ∧
        (expectedZone 1005 z).timeout = 1005) ∧
      (¬ ReadExpireTrigger 1005 z → ¬ ReadRefreshTrigger z →
        (expectedZone 1005 z).zone_state = z.zone_state ∧
        (expectedZone 1005 z).timeout = z.timeout) :=
  c8_state_file_roundtrip 1005 [sampleZone] (by decide) (by decide)
    (by decide)
    (fun z hz => by
      rw [List.mem_singleton.mp hz]
      exact sampleZone_wf)
    (List.pairwise_singleton _ _)

/-- C8 as literally stated is false: the reader re-arms `zone_state` and
`next_timeout` after parsing.  Concretely, a zone in state OK with timer
1060 and a pending notify stamp is read back REFRESHING with its timer
reset to the reading time 1005, although every written token was parsed
(the notify snapshot itself round-trips). -/
theorem c8_roundtrip_counterexample :
    (xfrd_read_state 1005 [freshZone 1005 sampleZoneNtf]
        (xfrd_write_state 1005 [sampleZoneNtf])).map
        (fun z => (z.zone_state, z.timeout, z.soa_notified_acquired)) =
      [(ZoneState.refreshing, 1005, 900)] ∧
    sampleZoneNtf.zone_state = ZoneState.ok ∧
    sampleZoneNtf.timeout = 1060 := by
  refine ⟨by decide, by decide, by decide⟩

end Xfrd
